import Mathlib

/-!
Verification of the F1Tracker track-image derivation pipeline (`src/app.py`)
against its natural-language specification.

The Python source is shallowly embedded: pure helpers become Lean functions,
the Flask route bodies become explicit state-passing functions, Python
exceptions become `Except`, machine floats used for *coordinates and angles*
are modelled as real numbers, and strings parsed from query parameters are
modelled as exact rationals.  External collaborators (the FastF1 session
provider, the matplotlib rasterizer, the filesystem cache) are injected as
parameters.
-/

namespace F1Tracker

/- ### Decimal rendering (Python `str` of `int`)

`str(n)` for a Python integer.  Digits are produced least-significant first
with an explicit fuel argument so that the definition is structurally
recursive and kernel-reducible. -/

def digitChar (d : Nat) : Char := Char.ofNat (48 + d)

def digitsAux : Nat → Nat → List Nat
  | 0, _ => []
  | fuel + 1, n => if n = 0 then [] else n % 10 :: digitsAux fuel (n / 10)

/-- Base-10 digits of `n`, least significant first (`[]` for `0`). -/
def decDigits (n : Nat) : List Nat := digitsAux (n + 1) n

/-- Characters of the decimal rendering of a natural number. -/
def natDecChars (n : Nat) : List Char :=
  if n = 0 then ['0'] else ((decDigits n).map digitChar).reverse

def natDecRepr (n : Nat) : String := String.mk (natDecChars n)

/-- Characters of Python `str(i)` for an integer. -/
def intDecChars (i : Int) : List Char :=
  if i < 0 then '-' :: natDecChars i.natAbs else natDecChars i.natAbs

def intDecRepr (i : Int) : String := String.mk (intDecChars i)

/- Round-trip: digits determine the number. -/

def undigits : List Nat → Nat
  | [] => 0
  | d :: ds => d + 10 * undigits ds

theorem digitsAux_undigits (fuel : Nat) : ∀ n : Nat, n ≤ fuel →
    undigits (digitsAux fuel n) = n := by
  induction fuel with
  | zero => intro n hn; interval_cases n; rfl
  | succ f ih =>
    intro n hn
    by_cases h0 : n = 0
    · subst h0; simp [digitsAux, undigits]
    · have hdiv : n / 10 ≤ f := by
        have : n / 10 < n := Nat.div_lt_self (Nat.pos_of_ne_zero h0) (by norm_num)
        omega
      simp only [digitsAux, if_neg h0, undigits, ih (n / 10) hdiv]
      omega

theorem undigits_decDigits (n : Nat) : undigits (decDigits n) = n :=
  digitsAux_undigits (n + 1) n (Nat.le_succ n)

theorem decDigits_injective : Function.Injective decDigits := by
  intro a b h
  have := undigits_decDigits a
  rw [h, undigits_decDigits] at this
  omega

theorem digitsAux_lt_ten (fuel : Nat) : ∀ n, ∀ d ∈ digitsAux fuel n, d < 10 := by
  induction fuel with
  | zero => intro n d hd; simp [digitsAux] at hd
  | succ f ih =>
    intro n d hd
    by_cases h0 : n = 0
    · subst h0; simp [digitsAux] at hd
    · simp only [digitsAux, if_neg h0, List.mem_cons] at hd
      rcases hd with h | h
      · subst h; exact Nat.mod_lt n (by norm_num)
      · exact ih (n / 10) d h

theorem decDigits_lt_ten (n : Nat) : ∀ d ∈ decDigits n, d < 10 :=
  digitsAux_lt_ten (n + 1) n

theorem digitChar_inj_lt : ∀ d < 10, ∀ e < 10, digitChar d = digitChar e → d = e := by
  decide

theorem digitChar_val : ∀ d < 10, (digitChar d).toNat = 48 + d := by decide

theorem map_digitChar_inj : ∀ l₁ l₂ : List Nat, (∀ d ∈ l₁, d < 10) → (∀ d ∈ l₂, d < 10) →
    l₁.map digitChar = l₂.map digitChar → l₁ = l₂ := by
  intro l₁
  induction l₁ with
  | nil => intro l₂ _ _ h; cases l₂ <;> simp_all
  | cons a t ih =>
    intro l₂ h₁ h₂ h
    cases l₂ with
    | nil => simp at h
    | cons b t₂ =>
      simp only [List.map_cons, List.cons.injEq] at h
      have ha : a < 10 := h₁ a (List.mem_cons_self a t)
      have hb : b < 10 := h₂ b (List.mem_cons_self b t₂)
      have hab := digitChar_inj_lt a ha b hb h.1
      have ht := ih t₂ (fun d hd => h₁ d (List.mem_cons_of_mem a hd))
        (fun d hd => h₂ d (List.mem_cons_of_mem b hd)) h.2
      rw [hab, ht]

theorem natDecChars_digits (n : Nat) : ∀ c ∈ natDecChars n, 48 ≤ c.toNat ∧ c.toNat ≤ 57 := by
  intro c hc
  unfold natDecChars at hc
  by_cases h0 : n = 0
  · simp [h0] at hc; subst hc; decide
  · simp only [if_neg h0, List.mem_reverse, List.mem_map] at hc
    obtain ⟨d, hd, hdc⟩ := hc
    have := decDigits_lt_ten n d hd
    have hv := digitChar_val d this
    subst hdc
    omega

theorem natDecChars_injective : Function.Injective natDecChars := by
  intro a b h
  unfold natDecChars at h
  by_cases ha : a = 0 <;> by_cases hb : b = 0
  · omega
  · exfalso
    simp only [if_pos ha, if_neg hb] at h
    -- the nonzero rendering would have to be the single char '0'
    have h' : (decDigits b).map digitChar = ['0'] := by
      have := congrArg List.reverse h
      simpa using this.symm
    have hd : decDigits b = [0] := by
      cases hdd : decDigits b with
      | nil => rw [hdd] at h'; simp at h'
      | cons d t =>
        rw [hdd] at h'
        cases t with
        | nil =>
          simp only [List.map_cons, List.map_nil, List.cons.injEq] at h'
          have hlt : d < 10 := by
            have := decDigits_lt_ten b; rw [hdd] at this
            exact this d (List.mem_cons_self _ _)
          have : d = 0 := digitChar_inj_lt d hlt 0 (by norm_num) h'.1
          rw [this]
        | cons e t₂ => simp at h'
    have := undigits_decDigits b
    rw [hd] at this
    simp [undigits] at this
    omega
  · exfalso
    simp only [if_neg ha, if_pos hb] at h
    have h' : (decDigits a).map digitChar = ['0'] := by
      have := congrArg List.reverse h
      simpa using this
    have hd : decDigits a = [0] := by
      cases hdd : decDigits a with
      | nil => rw [hdd] at h'; simp at h'
      | cons d t =>
        rw [hdd] at h'
        cases t with
        | nil =>
          simp only [List.map_cons, List.map_nil, List.cons.injEq] at h'
          have hlt : d < 10 := by
            have := decDigits_lt_ten a; rw [hdd] at this
            exact this d (List.mem_cons_self _ _)
          have : d = 0 := digitChar_inj_lt d hlt 0 (by norm_num) h'.1
          rw [this]
        | cons e t₂ => simp at h'
    have := undigits_decDigits a
    rw [hd] at this
    simp [undigits] at this
    omega
  · simp only [if_neg ha, if_neg hb] at h
    have := List.reverse_injective h
    exact decDigits_injective (map_digitChar_inj _ _ (decDigits_lt_ten a) (decDigits_lt_ten b) this)

theorem intDecChars_injective : Function.Injective intDecChars := by
  intro i j h
  unfold intDecChars at h
  have hyph : ∀ n : Nat, '-' ∉ natDecChars n := by
    intro n hmem
    have := natDecChars_digits n '-' hmem
    revert this; decide
  by_cases hi : i < 0 <;> by_cases hj : j < 0
  · simp only [if_pos hi, if_pos hj, List.cons.injEq] at h
    have := natDecChars_injective h.2
    omega
  · exfalso
    simp only [if_pos hi, if_neg hj] at h
    exact hyph j.natAbs (h ▸ List.mem_cons_self '-' _)
  · exfalso
    simp only [if_neg hi, if_pos hj] at h
    exact hyph i.natAbs (h.symm ▸ List.mem_cons_self '-' _)
  · simp only [if_neg hi, if_neg hj] at h
    have := natDecChars_injective h
    omega

theorem intDecChars_no_colon (i : Int) : ':' ∉ intDecChars i := by
  intro hmem
  unfold intDecChars at hmem
  by_cases hi : i < 0
  · simp only [if_pos hi, List.mem_cons] at hmem
    rcases hmem with h | h
    · exact absurd h (by decide)
    · have := natDecChars_digits i.natAbs ':' h; revert this; decide
  · simp only [if_neg hi] at hmem
    have := natDecChars_digits i.natAbs ':' hmem; revert this; decide

/- ### Python string helpers -/

/-- Python `str.replace(old, new)`: replace non-overlapping occurrences, left
to right.  Implemented with a fuel argument (the length of the string, enough
since every step consumes at least one character) so the recursion is
structural. -/
def replaceAux : Nat → List Char → List Char → List Char → List Char
  | 0, l, _, _ => l
  | _ + 1, [], _, _ => []
  | fuel + 1, c :: rest, pat, rep =>
    if pat.isPrefixOf (c :: rest) ∧ pat ≠ [] then
      rep ++ replaceAux fuel ((c :: rest).drop pat.length) pat rep
    else
      c :: replaceAux fuel rest pat rep

def pyReplace (s pat rep : String) : String :=
  String.mk (replaceAux s.data.length s.data pat.data rep.data)

/-- Python `\s` for the ASCII whitespace characters that can occur here. -/
def isPySpace (c : Char) : Bool :=
  c = ' ' || c = '\t' || c = '\n' || c = '\r' || c = '\x0b' || c = '\x0c'

/-- `str.strip()`: drop whitespace from both ends. -/
def pyStrip (l : List Char) : List Char :=
  ((l.dropWhile isPySpace).reverse.dropWhile isPySpace).reverse

/-- Characters kept by the regex `[^A-Za-z0-9_]` removal. -/
def isWordChar (c : Char) : Bool :=
  ('A' ≤ c && c ≤ 'Z') || ('a' ≤ c && c ≤ 'z') || ('0' ≤ c && c ≤ '9') || c = '_'

/-- `.str.replace(r"\s*Grand Prix$", "", regex=True)`: if the name ends in
`"Grand Prix"`, remove that suffix together with the (greedy) run of
whitespace before it. -/
def dropTrailingGrandPrix (l : List Char) : List Char :=
  let pat := "Grand Prix".data
  if pat.isSuffixOf l then ((l.reverse.drop pat.length).dropWhile isPySpace).reverse
  else l

/-- `.str.replace(r"\s+", "_", regex=True)`: each maximal whitespace run
becomes a single underscore (fuel recursion as above). -/
def collapseWsAux : Nat → List Char → List Char
  | 0, l => l
  | _ + 1, [] => []
  | fuel + 1, c :: rest =>
    if isPySpace c then '_' :: collapseWsAux fuel (rest.dropWhile isPySpace)
    else c :: collapseWsAux fuel rest

/-- `schedule_page`'s `FastF1Name` sanitizer (app.py lines 224-231): remove a
trailing `" Grand Prix"`, strip, whitespace runs to underscores, drop
punctuation. -/
def sanSchedule (s : String) : String :=
  let step := pyStrip (dropTrailingGrandPrix s.data)
  String.mk ((collapseWsAux step.length step).filter isWordChar)

/-- `race_view`'s sanitizer (app.py line 291):
`s.replace(' Grand Prix', '').replace(' ', '_')`. -/
def sanRaceView (s : String) : String := pyReplace (pyReplace s " Grand Prix" "") " " "_"

/-- `track_layout`'s sanitizer (app.py line 331), textually the same
expression as `race_view`'s. -/
def sanTrackLayout (s : String) : String := pyReplace (pyReplace s " Grand Prix" "") " " "_"

/-- `track_image`'s sanitizer (app.py line 368): spaces to underscores only. -/
def sanTrackImage (s : String) : String := pyReplace s " " "_"

/- ### Python numeric parsing of query parameters -/

def isDigitChar (c : Char) : Bool := '0' ≤ c && c ≤ '9'

def natOfDigits (l : List Char) : Nat := l.foldl (fun acc c => 10 * acc + (c.toNat - 48)) 0

/-- Unsigned part of a float literal: digits with an optional single
fractional dot, at least one digit overall. -/
def pyParseBody (sign : ℚ) (l₂ : List Char) : Option ℚ :=
  let intPart := l₂.takeWhile isDigitChar
  match l₂.dropWhile isDigitChar with
  | [] => if intPart.isEmpty then none else some (sign * natOfDigits intPart)
  | r :: frac =>
    if r = '.' then
      if frac.all isDigitChar ∧ ¬(intPart.isEmpty ∧ frac.isEmpty) then
        some (sign * ((natOfDigits intPart : ℚ) + (natOfDigits frac : ℚ) / (10 : ℚ) ^ frac.length))
      else none
    else none

/-- Model of Python `float(s)` on the decimal literals relevant here:
surrounding whitespace is stripped, an optional sign is followed by digits
with an optional single fractional dot.  The value is kept exact as a
rational. -/
def pyParseFloat (s : String) : Option ℚ :=
  match pyStrip s.data with
  | [] => none
  | c :: t =>
    if c = '-' then pyParseBody (-1) t
    else if c = '+' then pyParseBody 1 t
    else pyParseBody 1 (c :: t)

/-- Model of Python `int(s)`: stripped, optional sign, nonempty digit run. -/
def pyIntBody (sign : Int) (l₂ : List Char) : Option Int :=
  if l₂ ≠ [] ∧ l₂.all isDigitChar then some (sign * natOfDigits l₂) else none

def pyParseInt (s : String) : Option Int :=
  match pyStrip s.data with
  | [] => none
  | c :: t =>
    if c = '-' then pyIntBody (-1) t
    else if c = '+' then pyIntBody 1 t
    else pyIntBody 1 (c :: t)

/- Characters a successfully parsed float literal can contain.  This is what
makes the colon-separated cache key parseable: a validated `angle` query
string never contains `':'` and never reads `"None"`. -/

def isFloatChar (c : Char) : Bool := c = '-' || c = '+' || c = '.' || isDigitChar c

theorem mem_takeWhile_sat {p : Char → Bool} {l : List Char} {c : Char}
    (h : c ∈ l.takeWhile p) : p c = true := by
  induction l with
  | nil => simp [List.takeWhile] at h
  | cons a t ih =>
    rw [List.takeWhile_cons] at h
    by_cases hp : p a
    · rw [if_pos hp] at h
      rcases List.mem_cons.mp h with h' | h'
      · rwa [h']
      · exact ih h'
    · rw [if_neg hp] at h; simp at h

theorem mem_or_dropWhile {p : Char → Bool} {l : List Char} {c : Char} (h : c ∈ l) :
    p c = true ∨ c ∈ l.dropWhile p := by
  rw [← List.takeWhile_append_dropWhile (p := p) (l := l)] at h
  rcases List.mem_append.mp h with h' | h'
  · exact Or.inl (mem_takeWhile_sat h')
  · exact Or.inr h'

theorem mem_or_pyStrip {l : List Char} {c : Char} (h : c ∈ l) :
    isPySpace c = true ∨ c ∈ pyStrip l := by
  rcases mem_or_dropWhile (p := isPySpace) h with h' | h'
  · exact Or.inl h'
  · have h₂ : c ∈ (l.dropWhile isPySpace).reverse := List.mem_reverse.mpr h'
    rcases mem_or_dropWhile (p := isPySpace) h₂ with h₃ | h₃
    · exact Or.inl h₃
    · exact Or.inr (List.mem_reverse.mpr h₃)

theorem pyParseBody_chars {sign : ℚ} {l₂ : List Char} {q : ℚ}
    (h : pyParseBody sign l₂ = some q) :
    ∀ c ∈ l₂, (isDigitChar c || c = '.') = true := by
  intro c hc
  unfold pyParseBody at h
  rcases mem_or_dropWhile (p := isDigitChar) hc with hd | hd
  · simp [hd]
  · cases hrest : l₂.dropWhile isDigitChar with
    | nil => rw [hrest] at hd; simp at hd
    | cons r t =>
      rw [hrest] at h hd
      dsimp only at h
      by_cases hr : r = '.'
      · subst hr
        rcases List.mem_cons.mp hd with h' | h'
        · simp [h']
        · simp only [if_pos rfl] at h
          by_cases hcond : t.all isDigitChar ∧ ¬((l₂.takeWhile isDigitChar).isEmpty = true ∧ t.isEmpty = true)
          · have := List.all_eq_true.mp hcond.1 c h'
            simp [this]
          · rw [if_neg hcond] at h; exact absurd h (by simp)
      · rw [if_neg hr] at h; exact absurd h (by simp)

theorem pyParseFloat_chars {s : String} {q : ℚ} (h : pyParseFloat s = some q) :
    ∀ c ∈ pyStrip s.data, isFloatChar c = true := by
  intro c hc
  unfold pyParseFloat at h
  cases hl : pyStrip s.data with
  | nil => rw [hl] at hc; simp at hc
  | cons a t =>
    rw [hl] at h hc
    dsimp only at h
    by_cases ha : a = '-'
    · subst ha
      rw [if_pos rfl] at h
      rcases List.mem_cons.mp hc with h' | h'
      · simp [isFloatChar, h']
      · have := pyParseBody_chars h c h'
        rcases Bool.or_eq_true_iff.mp this with h'' | h'' <;> simp [isFloatChar, h'']
    · rw [if_neg ha] at h
      by_cases hb : a = '+'
      · subst hb
        rw [if_pos rfl] at h
        rcases List.mem_cons.mp hc with h' | h'
        · simp [isFloatChar, h']
        · have := pyParseBody_chars h c h'
          rcases Bool.or_eq_true_iff.mp this with h'' | h'' <;> simp [isFloatChar, h'']
      · rw [if_neg hb] at h
        have := pyParseBody_chars h c hc
        rcases Bool.or_eq_true_iff.mp this with h'' | h'' <;> simp [isFloatChar, h'']

theorem pyParseFloat_no_colon {s : String} {q : ℚ} (h : pyParseFloat s = some q) :
    ':' ∉ s.data := by
  intro hmem
  rcases mem_or_pyStrip hmem with h' | h'
  · exact absurd h' (by decide)
  · have := pyParseFloat_chars h ':' h'
    exact absurd this (by decide)

theorem pyParseFloat_ne_none_str {s : String} {q : ℚ} (h : pyParseFloat s = some q) :
    s ≠ "None" := by
  intro he
  subst he
  have hN : pyParseFloat "None" = none := rfl
  rw [hN] at h
  exact Option.noConfusion h

/- ### Geometry Transform (`rotate`, app.py lines 68-72)

Coordinates are modelled as real numbers.  `np.matmul(xy, rot_mat)` multiplies
the N×2 array of row vectors on the right by the 2×2 matrix. -/

noncomputable def rotMat (angle : ℝ) : (ℝ × ℝ) × (ℝ × ℝ) :=
  ((Real.cos angle, Real.sin angle), (-Real.sin angle, Real.cos angle))

noncomputable def matmulRow (v : ℝ × ℝ) (m : (ℝ × ℝ) × (ℝ × ℝ)) : ℝ × ℝ :=
  (v.1 * m.1.1 + v.2 * m.2.1, v.1 * m.1.2 + v.2 * m.2.2)

noncomputable def matmul (xy : List (ℝ × ℝ)) (m : (ℝ × ℝ) × (ℝ × ℝ)) : List (ℝ × ℝ) :=
  xy.map (fun v => matmulRow v m)

/-- `rotate(xy, angle=...)`: rotate a 2D array of points by an angle in
radians, via `np.matmul(xy, [[cos, sin], [-sin, cos]])`. -/
noncomputable def rotate (xy : List (ℝ × ℝ)) (angle : ℝ) : List (ℝ × ℝ) :=
  matmul xy (rotMat angle)

noncomputable def deg2rad (d : ℝ) : ℝ := d * Real.pi / 180

/-- `xy.mean(axis=0)`: centroid of the point list. -/
noncomputable def mean2 (xs : List (ℝ × ℝ)) : ℝ × ℝ :=
  ((xs.map Prod.fst).sum / xs.length, (xs.map Prod.snd).sum / xs.length)

/- ### Session data model

The external FastF1 provider is modelled as a function from the year to an
outcome, for the fixed event identifier and session kind of one
`draw_f1_circuit` call: either the provider raises
`SessionNotAvailableError`, raises some other exception, or yields a loaded
session with its lap list and optional circuit info (`get_circuit_info` is
wrapped in `try/except` in the source, so a raising call is identical to an
absent one). -/

structure Lap where
  time : Nat
  trace : List (ℝ × ℝ)

structure Corner where
  num : Int
  letter : String
  x : ℝ
  y : ℝ
  angle : ℝ

structure CircuitInfo where
  rotation : Option ℝ
  corners : List Corner

structure SessionData where
  laps : List Lap
  circuit : Option CircuitInfo

inductive ProviderResult where
  | notAvailable (msg : String)
  | failure (msg : String)
  | session (data : SessionData)

/-- `session.laps.pick_fastest()` on a nonempty lap list: the lap with the
minimal time (first wins ties). -/
def pickFastest1 (l : Lap) (ls : List Lap) : Lap :=
  ls.foldl (fun best lp => if lp.time < best.time then lp else best) l

/-- The exceptions `draw_f1_circuit` distinguishes: the provider's
`SessionNotAvailableError`, the data-quality `ValueError`s it raises itself,
and any other exception. -/
inductive ResolveErr where
  | sessionNotAvailable (msg : String)
  | valueError (msg : String)
  | failure (msg : String)
deriving DecidableEq

/-- One loop iteration of `draw_f1_circuit` (lines 84-104): load the session,
require a nonempty lap set and a nonempty positional trace for the fastest
lap. -/
def tryYear (pr : ProviderResult) (y : Int) (gp : String) : Except ResolveErr SessionData :=
  match pr with
  | ProviderResult.notAvailable msg => Except.error (ResolveErr.sessionNotAvailable msg)
  | ProviderResult.failure msg => Except.error (ResolveErr.failure msg)
  | ProviderResult.session d =>
    match d.laps with
    | [] => Except.error (ResolveErr.valueError
        ("Session data for " ++ intDecRepr y ++ " " ++ gp ++ " contains no laps."))
    | l :: ls =>
      if (pickFastest1 l ls).trace.isEmpty then
        Except.error (ResolveErr.valueError
          ("Fastest lap for " ++ intDecRepr y ++ " " ++ gp ++ " has no positional data."))
      else Except.ok d

/-- Python `range(start, start - count, -1)`: `count` descending years
starting at `start`. -/
def pyRangeDown (start : Int) (count : Nat) : List Int :=
  (List.range count).map (fun i => start - i)

/-- The year fallback loop of `draw_f1_circuit` (lines 83-124).  A
`SessionNotAvailableError` or `ValueError` at the currently requested year
falls through to the next year when `max_years_back > 0`; at any other year
it re-raises.  Any other exception re-raises immediately.  The loop's `else`
clause raises a `SessionNotAvailableError` naming the year range. -/
def resolveLoop (p : Int → ProviderResult) (gp : String) (currentYear : Int) (back : Nat) :
    List Int → Except ResolveErr (Int × SessionData)
  | [] => Except.error (ResolveErr.sessionNotAvailable
      ("No data found for " ++ gp ++ " from " ++ intDecRepr currentYear ++ " to " ++
        intDecRepr (currentYear - back)))
  | y :: rest =>
    match tryYear (p y) y gp with
    | Except.ok d => Except.ok (y, d)
    | Except.error (ResolveErr.sessionNotAvailable msg) =>
      if y = currentYear ∧ 0 < back then resolveLoop p gp currentYear back rest
      else Except.error (ResolveErr.sessionNotAvailable msg)
    | Except.error (ResolveErr.valueError msg) =>
      if y = currentYear ∧ 0 < back then resolveLoop p gp currentYear back rest
      else Except.error (ResolveErr.valueError msg)
    | Except.error (ResolveErr.failure msg) => Except.error (ResolveErr.failure msg)

/- ### Plot generation (lines 126-204) -/

structure Marker where
  label : String
  x : ℝ
  y : ℝ

/-- `np.arange(0, stop, step)` for a positive step. -/
def npArange (stop step : Nat) : List Nat :=
  (List.range ((stop + step - 1) / step)).map (fun i => i * step)

/-- The sample indices of the simplified corner marking (line 180):
`np.arange(0, len(pos), max(1, len(pos) // 8))`. -/
def strideIndices (n : Nat) : List Nat := npArange n (max 1 (n / 8))

/-- The corner markers drawn at lines 180-184: every stride-th trace point,
labelled `str(idx + 1)` in enumeration order. -/
def fallbackMarkers (tr : List (ℝ × ℝ)) : List Marker :=
  (strideIndices tr.length).enum.map
    (fun pr => { label := natDecRepr (pr.1 + 1), x := (tr.getD pr.2 (0, 0)).1,
                 y := (tr.getD pr.2 (0, 0)).2 })

/-- Steps 1-4 of the plot section (lines 131-169): build the point array,
centre it on the centroid, rotate per the resolved policy (explicit caller
angle, else official circuit rotation in degrees, else no rotation in strict
mode / the legacy -90° fallback otherwise), then restore the centroid. -/
noncomputable def normTrace (lap : Lap) (circ : Option CircuitInfo) (angleRad : Option ℝ)
    (requireOfficial : Bool) : List (ℝ × ℝ) :=
  let xy := lap.trace
  let center := mean2 xy
  let xyC := xy.map (fun pt => (pt.1 - center.1, pt.2 - center.2))
  let rotationDeg : Option ℝ := match circ with
    | none => none
    | some ci => ci.rotation
  let xyR := match angleRad with
    | some a => rotate xyC a
    | none => match rotationDeg with
      | some rd => rotate xyC (deg2rad rd)
      | none => if requireOfficial then xyC else rotate xyC (-(Real.pi / 2))
  xyR.map (fun pt => (pt.1 + center.1, pt.2 + center.2))

/-- Everything handed to the matplotlib rasterizer for one figure: the
rotated trace, the corner markers, the axes flag, the figure size, and the
on-figure title (set only when axes are shown, lines 189-194). -/
structure RasterIn where
  trace : List (ℝ × ℝ)
  markers : List Marker
  showAxes : Bool
  figsize : ℚ × ℚ
  axesTitle : Option String

noncomputable def plotRasterIn (gp : String) (angleRad : Option ℝ) (showAxes : Bool)
    (figsize : ℚ × ℚ) (requireOfficial : Bool) (y : Int) (lap : Lap)
    (circ : Option CircuitInfo) : RasterIn :=
  let tr := normTrace lap circ angleRad requireOfficial
  { trace := tr, markers := fallbackMarkers tr, showAxes := showAxes, figsize := figsize,
    axesTitle := if showAxes then some (gp ++ " Track Layout (" ++ intDecRepr y ++ ")")
                 else none }

structure DrawOk where
  image : String
  title : String
  yearUsed : Int

/-- The plot section of `draw_f1_circuit` (lines 126-204): re-pick the
fastest lap of the resolved session (the empty branch is unreachable after a
successful resolution), rasterize, and return the encoded image with the
title `f'{gp_name} ({year})'` and the effective year. -/
noncomputable def plotPart (raster : RasterIn → String) (gp : String) (angleRad : Option ℝ)
    (showAxes : Bool) (figsize : ℚ × ℚ) (requireOfficial : Bool) (y : Int)
    (d : SessionData) : Except ResolveErr DrawOk :=
  match d.laps with
  | [] => Except.error (ResolveErr.failure "no laps")
  | l :: ls =>
    let rin := plotRasterIn gp angleRad showAxes figsize requireOfficial y
      (pickFastest1 l ls) d.circuit
    Except.ok { image := raster rin, title := gp ++ " (" ++ intDecRepr y ++ ")", yearUsed := y }

/-- `draw_f1_circuit(year, gp_name, 'R', max_years_back, angle_rad=...,
show_axes=..., figsize=..., require_official=...)` (lines 74-208), with the
rasterizer and the session provider injected. -/
noncomputable def drawF1Circuit (raster : RasterIn → String) (p : Int → ProviderResult)
    (year : Int) (gp : String) (maxYearsBack : Nat) (angleRad : Option ℝ) (showAxes : Bool)
    (figsize : ℚ × ℚ) (requireOfficial : Bool) : Except ResolveErr DrawOk :=
  match resolveLoop p gp year maxYearsBack (pyRangeDown year (maxYearsBack + 1)) with
  | Except.error e => Except.error e
  | Except.ok (y, d) => plotPart raster gp angleRad showAxes figsize requireOfficial y d

/- Observation helpers on draw results. -/

def okYear : Except ResolveErr DrawOk → Option Int
  | Except.ok r => some r.yearUsed
  | Except.error _ => none

def okTitle : Except ResolveErr DrawOk → Option String
  | Except.ok r => some r.title
  | Except.error _ => none

def errOf : Except ResolveErr DrawOk → Option ResolveErr
  | Except.ok _ => none
  | Except.error e => some e

/-- `True` exactly on the per-year failures that the spec calls
"data-availability or data-quality" failures: session unavailable, empty lap
set, or empty fastest-lap trace. -/
def yearFailsB : ProviderResult → Bool
  | ProviderResult.notAvailable _ => true
  | ProviderResult.failure _ => false
  | ProviderResult.session d =>
    match d.laps with
    | [] => true
    | l :: ls => (pickFastest1 l ls).trace.isEmpty

/-- `True` when the year loads usable data: a session with a nonempty lap set
whose fastest lap has a nonempty trace. -/
def yearGoodB : ProviderResult → Bool
  | ProviderResult.notAvailable _ => false
  | ProviderResult.failure _ => false
  | ProviderResult.session d =>
    match d.laps with
    | [] => false
    | l :: ls => !(pickFastest1 l ls).trace.isEmpty

/-- The error a failing year attempt raises (`none` when the attempt
succeeds). -/
def tryErrOf (pr : ProviderResult) (y : Int) (gp : String) : Option ResolveErr :=
  match tryYear pr y gp with
  | Except.ok _ => none
  | Except.error e => some e

/- ### The `track_layout` page route (lines 329-359) -/

structure PageResult where
  imageData : String
  title : String
  dataAvailable : Bool

/-- `track_layout`: sanitize the name, draw with `max_years_back=1` and the
pipeline defaults, and map `SessionNotAvailableError` and any other
exception to the two failure titles with empty image data
(`data_available = bool(image_data)` on success). -/
noncomputable def trackLayout (raster : RasterIn → String) (p : Int → ProviderResult)
    (year : Int) (gpName : String) : PageResult :=
  match drawF1Circuit raster p year (sanTrackLayout gpName) 1 none false (16, 9) true with
  | Except.ok r => { imageData := r.image, title := r.title, dataAvailable := !(r.image == "") }
  | Except.error (ResolveErr.sessionNotAvailable _) =>
    { imageData := "", title := "Track Data Unavailable for " ++ gpName ++ " (" ++
        intDecRepr year ++ " or " ++ intDecRepr (year - 1) ++ ")", dataAvailable := false }
  | Except.error _ =>
    { imageData := "",
      title := "Error loading track data for " ++ gpName ++ ".", dataAvailable := false }

/- ### The `track_image` endpoint (lines 361-455) and its render cache -/

/-- Python `str(float)` for the components of `str(figsize)`.  The real repr
is the shortest round-trip decimal — an injective rendering of the value that
never contains `':'`, `','`, `'('` or `')'`; those are the only properties
the key derivation relies on, and the model renders the exact rational value
as `numerator '.' denominator`, which has them too. -/
def pyFloatChars (q : ℚ) : List Char := intDecChars q.num ++ '.' :: natDecChars q.den

/-- `str(figsize)` at line 396: `"None"` or the tuple repr `"(w, h)"`. -/
def fsChars : Option (ℚ × ℚ) → List Char
  | none => "None".data
  | some (w, h) => '(' :: (pyFloatChars w ++ ',' :: ' ' :: pyFloatChars h) ++ [')']

/-- `str(angle)` at line 396: the raw query string, or `"None"`. -/
def angleChars : Option String → List Char
  | none => "None".data
  | some s => s.data

/-- `str(show_axes)` at line 396. -/
def axesChars : Bool → List Char
  | true => "True".data
  | false => "False".data

/-- The f-string at line 396:
`f"{year}:{gp_name_sanitized}:{angle}:{show_axes}:{figsize}"`.  The sha256
hash of this string addresses the cache file; collision resistance being
assumed, the model addresses entries by the key string itself. -/
def keyChars (year : Int) (name : String) (angle : Option String) (ax : Bool)
    (fs : Option (ℚ × ℚ)) : List Char :=
  intDecChars year ++ ':' :: name.data ++ ':' :: angleChars angle ++ ':' :: axesChars ax ++
    ':' :: fsChars fs

def cacheKey (year : Int) (name : String) (angle : Option String) (ax : Bool)
    (fs : Option (ℚ × ℚ)) : String :=
  String.mk (keyChars year name angle ax fs)

/- The durable key→bytes store (`cache/generated/<hash>.png`). -/

def lookupCache : List (String × String) → String → Option String
  | [], _ => none
  | kv :: rest, key => if kv.1 = key then some kv.2 else lookupCache rest key

/-- `os.remove` of the entry's file. -/
def removeCache (c : List (String × String)) (key : String) : List (String × String) :=
  c.filter (fun kv => kv.1 ≠ key)

/-- Writing the entry's file (create-or-overwrite; a later write shadows). -/
def insertCache (c : List (String × String)) (key v : String) : List (String × String) :=
  (key, v) :: c

/-- The query parameters `track_image` reads, all raw strings. -/
structure TIQuery where
  angle : Option String
  axesFlag : Option String
  w : Option String
  h : Option String
  refresh : Option String

/-- `bool(int(s))` with a parse exception coerced to `False`
(lines 381-384 for `show_axes`, 401-404 for `refresh`). -/
def parseBoolFlag (s : String) : Bool :=
  match pyParseInt s with
  | some n => !(n == 0)
  | none => false

/-- The figsize determination (lines 386-391): a parse is attempted only when
both `w` and `h` are present; a parse failure then aborts with 400. -/
def figsizeOf (w h : Option String) : Except Unit (Option (ℚ × ℚ)) :=
  match w, h with
  | some ws, some hs =>
    match pyParseFloat ws, pyParseFloat hs with
    | some a, some b => Except.ok (some (a, b))
    | _, _ => Except.error ()
  | _, _ => Except.ok none

structure TIParams where
  san : String
  ax : Bool
  fs : Option (ℚ × ℚ)
  key : String
  refresh : Bool
deriving DecidableEq

/-- Parameter validation and key derivation of `track_image`
(lines 368-404): an unparseable `angle` or an unparseable supplied `w`/`h`
pair is a 400; `show_axes` and `refresh` parse failures coerce to `False`. -/
def tiFront (year : Int) (gpName : String) (q : TIQuery) : Except String TIParams :=
  if (match q.angle with | some s => (pyParseFloat s).isNone | none => false) then
    Except.error "Invalid angle parameter"
  else
    let ax := parseBoolFlag ((q.axesFlag).getD "0")
    match figsizeOf q.w q.h with
    | Except.error _ => Except.error "Invalid w/h parameters"
    | Except.ok fs =>
      Except.ok { san := sanTrackImage gpName, ax := ax, fs := fs,
                  key := cacheKey year (sanTrackImage gpName) q.angle ax fs,
                  refresh := parseBoolFlag ((q.refresh).getD "0") }

inductive TIResponse where
  | imageOk (bytes : String) (cacheControl : String)
  | clientErr (code : Nat) (msg : String)
deriving DecidableEq

structure TIResult where
  resp : TIResponse
  rendered : Bool
  cacheAfter : List (String × String)

/-- The render part of `track_image` (lines 420-455): reject a manual angle
(strict-only), else invoke the pipeline (`require_official=True`, the
pipeline's own `(16, 9)` default when no figsize was supplied, never an
`angle_rad`), persist the bytes best-effort, and answer; pipeline failures
map to 404 / 500.  The strict-mode rejection at line 424 raises
`abort(400, "Manual angle parameter is not allowed: ...")` *inside* the
`try:` block whose final `except Exception` (line 453) catches the
`HTTPException` and answers `abort(500, "Error generating image")` instead,
so the response actually emitted for a parseable override is that 500; no
render is attempted.  `writeFails` models a failed cache write, which is
logged and does not change the response. -/
noncomputable def tiRender (raster : RasterIn → String) (p : Int → ProviderResult)
    (writeFails : Bool) (year : Int) (angle : Option String) (san : String) (ax : Bool)
    (fs : Option (ℚ × ℚ)) (refresh : Bool) (key : String)
    (cache1 : List (String × String)) : TIResult :=
  match angle with
  | some _ =>
    { resp := TIResponse.clientErr 500 "Error generating image",
      rendered := false, cacheAfter := cache1 }
  | none =>
    match drawF1Circuit raster p year san 1 none ax (fs.getD (16, 9)) true with
    | Except.ok r =>
      { resp := TIResponse.imageOk r.image
          (if refresh then "no-cache, no-store, must-revalidate" else "public, max-age=3600"),
        rendered := true,
        cacheAfter := if writeFails then cache1 else insertCache cache1 key r.image }
    | Except.error (ResolveErr.sessionNotAvailable _) =>
      { resp := TIResponse.clientErr 404 "Track data not available", rendered := true,
        cacheAfter := cache1 }
    | Except.error _ =>
      { resp := TIResponse.clientErr 500 "Error generating image", rendered := true,
        cacheAfter := cache1 }

/-- The `track_image` route: validate, then serve from the store on a hit
without refresh; on a refresh hit delete the entry first (best-effort:
`removeFails` models a failed `os.remove`, which is logged); then render.
Base64 round-tripping of the image payload is elided (encode/decode are
mutually inverse), so the pipeline's encoded image stands for the bytes. -/
noncomputable def trackImage (raster : RasterIn → String) (p : Int → ProviderResult)
    (removeFails writeFails : Bool) (year : Int) (gpName : String)
    (cache : List (String × String)) (q : TIQuery) : TIResult :=
  match tiFront year gpName q with
  | Except.error msg =>
    { resp := TIResponse.clientErr 400 msg, rendered := false, cacheAfter := cache }
  | Except.ok ps =>
    match lookupCache cache ps.key with
    | some bytes =>
      if ps.refresh then
        tiRender raster p writeFails year q.angle ps.san ps.ax ps.fs ps.refresh ps.key
          (if removeFails then cache else removeCache cache ps.key)
      else
        { resp := TIResponse.imageOk bytes "public, max-age=3600", rendered := false,
          cacheAfter := cache }
    | none =>
      tiRender raster p writeFails year q.angle ps.san ps.ax ps.fs ps.refresh ps.key cache

/-- Cache states reachable from the empty store through any sequence of
`track_image` requests — the Render Cache exclusively owns its entries, no
other component writes them. -/
inductive ReachableCache : List (String × String) → Prop where
  | empty : ReachableCache []
  | step (raster : RasterIn → String) (p : Int → ProviderResult) (rf wf : Bool) (year : Int)
      (gpName : String) (q : TIQuery) {c : List (String × String)} :
      ReachableCache c → ReachableCache (trackImage raster p rf wf year gpName c q).cacheAfter

/- ### Definitions taken from the specification's words, for comparison -/

/-- Modelled from the spec (§4.2, claim C3): the rotation the spec claims —
left-multiplication by `[[cos, sin], [-sin, cos]]` with the point as a
column vector on the right, i.e. `(x, y) ↦ (x cos + y sin, -x sin + y cos)`. -/
noncomputable def rotateSpecClaimed (xy : List (ℝ × ℝ)) (angle : ℝ) : List (ℝ × ℝ) :=
  xy.map (fun v => (v.1 * Real.cos angle + v.2 * Real.sin angle,
                    -v.1 * Real.sin angle + v.2 * Real.cos angle))

/-- Modelled from the spec (§4.3, claim C4): the fixed lateral offset vector
of the authoritative Corner Annotator (its magnitude is unspecified in the
spec; no corner-list consumer exists in `src/app.py`). -/
noncomputable def offsetVec : ℝ × ℝ := (500, 0)

/-- Modelled from the spec (§4.3, claim C4): the authoritative Corner
Annotator — for each corner of the circuit info, rotate the fixed lateral
offset vector by the corner's exit-direction angle, add it to the corner's
raw (x, y), apply the same centroid-rotation normalization as the main
trace, and label with the corner number concatenated with its optional
letter suffix. -/
noncomputable def annotateAuthoritative (ci : CircuitInfo) (center : ℝ × ℝ)
    (angleR : ℝ) : List Marker :=
  ci.corners.map (fun c =>
    let off := matmulRow offsetVec (rotMat (deg2rad c.angle))
    let raw := (c.x + off.1, c.y + off.2)
    let centered := (raw.1 - center.1, raw.2 - center.2)
    let rot := matmulRow centered (rotMat angleR)
    { label := intDecRepr c.num ++ c.letter, x := rot.1 + center.1, y := rot.2 + center.2 })

/- ### Pipeline helper lemmas -/

theorem normTrace_length (lap : Lap) (circ : Option CircuitInfo) (aR : Option ℝ)
    (ro : Bool) : (normTrace lap circ aR ro).length = lap.trace.length := by
  unfold normTrace rotate matmul
  cases aR with
  | some a => simp
  | none =>
    cases circ with
    | none => cases ro <;> simp
    | some ci =>
      cases hr : ci.rotation with
      | none => cases ro <;> simp [hr]
      | some rd => simp [hr]

theorem fallbackMarkers_labels (tr : List (ℝ × ℝ)) :
    (fallbackMarkers tr).map Marker.label =
      (List.range (strideIndices tr.length).length).map (fun i => natDecRepr (i + 1)) := by
  unfold fallbackMarkers
  rw [List.map_map, ← List.enum_map_fst (strideIndices tr.length), List.map_map]
  rfl

theorem fallbackMarkers_length (tr : List (ℝ × ℝ)) :
    (fallbackMarkers tr).length = (strideIndices tr.length).length := by
  unfold fallbackMarkers
  rw [List.length_map, List.enum_length]

/- ### Resolver helper lemmas -/

theorem tryYear_fail_cases {pr : ProviderResult} (y : Int) (gp : String)
    (h : yearFailsB pr = true) :
    (∃ m, tryYear pr y gp = Except.error (ResolveErr.sessionNotAvailable m)) ∨
    (∃ m, tryYear pr y gp = Except.error (ResolveErr.valueError m)) := by
  cases pr with
  | notAvailable m => exact Or.inl ⟨m, rfl⟩
  | failure m => simp [yearFailsB] at h
  | session d =>
    obtain ⟨laps, circ⟩ := d
    cases laps with
    | nil => exact Or.inr ⟨_, rfl⟩
    | cons l ls =>
      have h' : (pickFastest1 l ls).trace.isEmpty = true := by
        simpa [yearFailsB] using h
      refine Or.inr
        ⟨"Fastest lap for " ++ intDecRepr y ++ " " ++ gp ++ " has no positional data.", ?_⟩
      show (if (pickFastest1 l ls).trace.isEmpty then _ else _) = _
      rw [if_pos h']

theorem tryYear_ok_of_good {pr : ProviderResult} (y : Int) (gp : String)
    (h : yearGoodB pr = true) :
    ∃ d, tryYear pr y gp = Except.ok d ∧ d.laps ≠ [] := by
  cases pr with
  | notAvailable m => simp [yearGoodB] at h
  | failure m => simp [yearGoodB] at h
  | session d =>
    obtain ⟨laps, circ⟩ := d
    cases laps with
    | nil => simp [yearGoodB] at h
    | cons l ls =>
      have h' : (pickFastest1 l ls).trace.isEmpty = false := by
        simpa [yearGoodB] using h
      refine ⟨⟨l :: ls, circ⟩, ?_, by simp⟩
      show (if (pickFastest1 l ls).trace.isEmpty then _ else _) = _
      rw [if_neg (by simp [h'])]

theorem resolveLoop_fail_head (p : Int → ProviderResult) (gp : String) (cy : Int)
    (back : Nat) (y : Int) (rest : List Int) (hfail : yearFailsB (p y) = true)
    (hy : y = cy) (hb : 0 < back) :
    resolveLoop p gp cy back (y :: rest) = resolveLoop p gp cy back rest := by
  rcases @tryYear_fail_cases (p y) y gp hfail with ⟨m, hm⟩ | ⟨m, hm⟩ <;>
    · simp only [resolveLoop, hm]
      rw [if_pos ⟨hy, hb⟩]

theorem resolveLoop_ok_head (p : Int → ProviderResult) (gp : String) (cy : Int)
    (back : Nat) (y : Int) (rest : List Int) (d : SessionData)
    (hok : tryYear (p y) y gp = Except.ok d) :
    resolveLoop p gp cy back (y :: rest) = Except.ok (y, d) := by
  simp only [resolveLoop, hok]

theorem resolveLoop_err_head (p : Int → ProviderResult) (gp : String) (cy : Int)
    (back : Nat) (y : Int) (rest : List Int) (e : ResolveErr)
    (he : tryErrOf (p y) y gp = some e) (hy : ¬(y = cy ∧ 0 < back)) :
    resolveLoop p gp cy back (y :: rest) = Except.error e := by
  unfold tryErrOf at he
  cases htry : tryYear (p y) y gp with
  | ok d => rw [htry] at he; exact absurd he (by simp)
  | error e' =>
    rw [htry] at he
    simp only [Option.some.injEq] at he
    subst he
    cases e' with
    | sessionNotAvailable m => simp only [resolveLoop, htry]; rw [if_neg hy]
    | valueError m => simp only [resolveLoop, htry]; rw [if_neg hy]
    | failure m => simp only [resolveLoop, htry]

theorem pyRangeDown_two (year : Int) : pyRangeDown year 2 = [year, year - 1] := by
  show (List.range 2).map (fun i => year - (i : Int)) = [year, year - 1]
  rw [show List.range 2 = [0, 1] from rfl]
  simp

theorem plotPart_obs (raster : RasterIn → String) (gp : String) (aR : Option ℝ) (sA : Bool)
    (fs : ℚ × ℚ) (ro : Bool) (y : Int) (d : SessionData) (hne : d.laps ≠ []) :
    okYear (plotPart raster gp aR sA fs ro y d) = some y ∧
    okTitle (plotPart raster gp aR sA fs ro y d) = some (gp ++ " (" ++ intDecRepr y ++ ")") := by
  cases hl : d.laps with
  | nil => exact absurd hl hne
  | cons l ls =>
    unfold plotPart
    rw [hl]
    exact ⟨rfl, rfl⟩

/- ### C1 — year fallback success -/

/-- C1: if the requested year fails for a data-availability or data-quality
reason (session unavailable, empty lap set, or empty fastest-lap trace) and
`year - 1` loads usable data, then `draw_f1_circuit` with
`max_years_back = 1` succeeds with effective year `year - 1`, and the title
is the identifier followed by the effective year in parentheses. -/
theorem C1_fallback_to_previous_year (raster : RasterIn → String)
    (p : Int → ProviderResult) (year : Int) (gp : String) (aR : Option ℝ) (sA : Bool)
    (fs : ℚ × ℚ) (ro : Bool)
    (h1 : yearFailsB (p year) = true) (h2 : yearGoodB (p (year - 1)) = true) :
    okYear (drawF1Circuit raster p year gp 1 aR sA fs ro) = some (year - 1) ∧
    okTitle (drawF1Circuit raster p year gp 1 aR sA fs ro) =
      some (gp ++ " (" ++ intDecRepr (year - 1) ++ ")") := by
  obtain ⟨d, hok, hne⟩ := @tryYear_ok_of_good (p (year - 1)) (year - 1) gp h2
  have hdraw : drawF1Circuit raster p year gp 1 aR sA fs ro =
      plotPart raster gp aR sA fs ro (year - 1) d := by
    unfold drawF1Circuit
    have hr : pyRangeDown year (1 + 1) = [year, year - 1] := pyRangeDown_two year
    rw [hr, resolveLoop_fail_head p gp year 1 year [year - 1] h1 rfl (by norm_num),
      resolveLoop_ok_head p gp year 1 (year - 1) [] d hok]
  rw [hdraw]
  exact plotPart_obs raster gp aR sA fs ro (year - 1) d hne

noncomputable def rasterStub : RasterIn → String := fun _ => "png-bytes"

noncomputable def providerC1 : Int → ProviderResult := fun y =>
  if y = 2023 then
    ProviderResult.session
      { laps := [{ time := 90, trace := [((0 : ℝ), 0), (3, 4)] }], circuit := none }
  else ProviderResult.notAvailable "fastf1: session not available"

theorem C1_fallback_witness :
    yearFailsB (providerC1 2024) = true ∧ yearGoodB (providerC1 (2024 - 1)) = true ∧
    (okYear (drawF1Circuit rasterStub providerC1 2024 "Monaco" 1 none false (16, 9) true) =
        some (2024 - 1) ∧
      okTitle (drawF1Circuit rasterStub providerC1 2024 "Monaco" 1 none false (16, 9) true) =
        some ("Monaco" ++ " (" ++ intDecRepr (2024 - 1) ++ ")")) :=
  ⟨by decide, by decide,
    C1_fallback_to_previous_year rasterStub providerC1 2024 "Monaco" none false (16, 9) true
      (by decide) (by decide)⟩

/- ### C2 — total failure of the look-back range -/

theorem draw_err_of_both_fail (raster : RasterIn → String) (p : Int → ProviderResult)
    (year : Int) (gp : String) (aR : Option ℝ) (sA : Bool) (fs : ℚ × ℚ) (ro : Bool)
    (h1 : yearFailsB (p year) = true) (h2 : yearFailsB (p (year - 1)) = true) :
    ∃ e, drawF1Circuit raster p year gp 1 aR sA fs ro = Except.error e ∧
      tryErrOf (p (year - 1)) (year - 1) gp = some e := by
  have hyneq : ¬((year - 1 : Int) = year ∧ 0 < (1 : Nat)) := by
    rintro ⟨hc, -⟩; omega
  have hr : pyRangeDown year (1 + 1) = [year, year - 1] := pyRangeDown_two year
  rcases @tryYear_fail_cases (p (year - 1)) (year - 1) gp h2 with ⟨m, hm⟩ | ⟨m, hm⟩
  · refine ⟨ResolveErr.sessionNotAvailable m, ?_, by unfold tryErrOf; rw [hm]⟩
    unfold drawF1Circuit
    rw [hr, resolveLoop_fail_head p gp year 1 year [year - 1] h1 rfl (by norm_num),
      resolveLoop_err_head p gp year 1 (year - 1) [] _ (by unfold tryErrOf; rw [hm]) hyneq]
  · refine ⟨ResolveErr.valueError m, ?_, by unfold tryErrOf; rw [hm]⟩
    unfold drawF1Circuit
    rw [hr, resolveLoop_fail_head p gp year 1 year [year - 1] h1 rfl (by norm_num),
      resolveLoop_err_head p gp year 1 (year - 1) [] _ (by unfold tryErrOf; rw [hm]) hyneq]

/-- C2 (amended): when every year in the look-back range fails for a
data-availability or data-quality reason, `draw_f1_circuit` re-raises the
previous-year attempt's own error — the provider's SessionNotAvailable with
the provider's message, or the data-quality ValueError — rather than a
SessionUnavailable naming the identifier and the attempted year range (that
message exists only in the unreachable loop-exhaustion branch); the
`track_layout` caller's result then carries no image bytes. -/
theorem C2_last_error_and_no_bytes (raster : RasterIn → String) (p : Int → ProviderResult)
    (year : Int) (gp : String) (aR : Option ℝ) (sA : Bool) (fs : ℚ × ℚ) (ro : Bool)
    (e : ResolveErr)
    (h1 : yearFailsB (p year) = true) (h2 : yearFailsB (p (year - 1)) = true)
    (he : tryErrOf (p (year - 1)) (year - 1) gp = some e) :
    drawF1Circuit raster p year gp 1 aR sA fs ro = Except.error e ∧
    (trackLayout raster p year gp).imageData = "" ∧
    (trackLayout raster p year gp).dataAvailable = false := by
  obtain ⟨e', hdraw, he'⟩ := draw_err_of_both_fail raster p year gp aR sA fs ro h1 h2
  have hee : e' = e := by
    rw [he'] at he
    exact Option.some.inj he
  subst hee
  obtain ⟨e₂, hdraw₂, -⟩ :=
    draw_err_of_both_fail raster p year (sanTrackLayout gp) none false (16, 9) true h1 h2
  have hpage : (trackLayout raster p year gp).imageData = "" ∧
      (trackLayout raster p year gp).dataAvailable = false := by
    unfold trackLayout
    rw [hdraw₂]
    cases e₂ <;> exact ⟨rfl, rfl⟩
  exact ⟨hdraw, hpage.1, hpage.2⟩

/-- Constructor test for SessionNotAvailable errors. -/
def isSNA : Option ResolveErr → Bool
  | some (ResolveErr.sessionNotAvailable _) => true
  | _ => false

noncomputable def providerC2 : Int → ProviderResult := fun y =>
  if y = 2024 then ProviderResult.notAvailable "fastf1: session not available"
  else ProviderResult.session { laps := [], circuit := none }

/-- C2 counterexample: with 2024 unavailable and the 2023 session loading an
empty lap set, the resolver raises the 2023 attempt's data-quality
ValueError — not a SessionUnavailable error naming the identifier and the
attempted year range. -/
theorem C2_cex :
    errOf (drawF1Circuit rasterStub providerC2 2024 "Monaco" 1 none false (16, 9) true) =
      some (ResolveErr.valueError "Session data for 2023 Monaco contains no laps.") ∧
    isSNA (errOf (drawF1Circuit rasterStub providerC2 2024 "Monaco" 1 none false (16, 9) true))
      = false := by
  exact ⟨by decide, by decide⟩

theorem C2_last_error_witness :
    yearFailsB (providerC2 2024) = true ∧ yearFailsB (providerC2 (2024 - 1)) = true ∧
    tryErrOf (providerC2 (2024 - 1)) (2024 - 1) "Monaco" =
      some (ResolveErr.valueError "Session data for 2023 Monaco contains no laps.") ∧
    (drawF1Circuit rasterStub providerC2 2024 "Monaco" 1 none false (16, 9) true =
        Except.error (ResolveErr.valueError "Session data for 2023 Monaco contains no laps.") ∧
      (trackLayout rasterStub providerC2 2024 "Monaco").imageData = "" ∧
      (trackLayout rasterStub providerC2 2024 "Monaco").dataAvailable = false) :=
  ⟨by decide, by decide, by decide,
    C2_last_error_and_no_bytes rasterStub providerC2 2024 "Monaco" none false (16, 9) true
      (ResolveErr.valueError "Session data for 2023 Monaco contains no laps.")
      (by decide) (by decide) (by decide)⟩

/- ### C3 — the rotation convention -/

/-- C3 counterexample: on the single point `(1, 0)` at angle `π/2` the code's
`rotate` yields `(0, 1)` while the claimed column-vector formula
`(x cos θ + y sin θ, -x sin θ + y cos θ)` yields `(0, -1)`. -/
theorem C3_cex :
    rotate [((1 : ℝ), 0)] (Real.pi / 2) ≠ rotateSpecClaimed [((1 : ℝ), 0)] (Real.pi / 2) := by
  unfold rotate matmul matmulRow rotMat rotateSpecClaimed
  simp [Real.cos_pi_div_two, Real.sin_pi_div_two]
  norm_num

/-- C3 (amended): `rotate` right-multiplies each point, as a row vector, by
the matrix `[[cos θ, sin θ], [-sin θ, cos θ]]` — the transpose action of the
claimed left-multiplication on column vectors — mapping `(x, y)` to
`(x cos θ - y sin θ, x sin θ + y cos θ)`, and it maps the empty point set to
the empty point set. -/
theorem C3_rotate_row_convention (xy : List (ℝ × ℝ)) (angle : ℝ) :
    rotate xy angle = xy.map (fun v =>
      (v.1 * Real.cos angle - v.2 * Real.sin angle,
       v.1 * Real.sin angle + v.2 * Real.cos angle)) ∧
    rotate ([] : List (ℝ × ℝ)) angle = [] := by
  constructor
  · unfold rotate matmul matmulRow rotMat
    apply List.map_congr_left
    intro v _
    simp only [mul_neg]
    ring_nf
  · rfl

/- ### C6 — identifier sanitization across entry points -/

/-- C6 counterexample: the entry points do not share one sanitization rule —
`"Monaco Grand Prix"` becomes `"Monaco"` on the schedule page but
`"Monaco_Grand_Prix"` at the public track-image endpoint. -/
theorem C6_cex :
    sanSchedule "Monaco Grand Prix" = "Monaco" ∧
    sanTrackImage "Monaco Grand Prix" = "Monaco_Grand_Prix" ∧
    sanSchedule "Monaco Grand Prix" ≠ sanTrackImage "Monaco Grand Prix" := by
  refine ⟨by decide, by decide, by decide⟩

/-- C6 (amended): `race_view` and `track_layout` share one sanitization rule
(remove every occurrence of `" Grand Prix"`, then spaces to underscores),
but `schedule_page` (trailing-suffix removal, whitespace collapsing and
punctuation stripping) and `track_image` (spaces to underscores only) each
apply a different rule, so the same logical race can map to different
identifiers depending on the entry point. -/
theorem C6_per_route_rules :
    (∀ s : String, sanRaceView s = sanTrackLayout s) ∧
    sanSchedule "Monaco Grand Prix" = "Monaco" ∧
    sanRaceView "Monaco Grand Prix" = "Monaco" ∧
    sanTrackLayout "Monaco Grand Prix" = "Monaco" ∧
    sanTrackImage "Monaco Grand Prix" = "Monaco_Grand_Prix" := by
  refine ⟨fun s => rfl, by decide, by decide, by decide, by decide⟩

/- ### C4 / C5 — corner annotations -/

/-- C4 (amended): corner annotations are never computed from CircuitInfo's
corner list.  For every render they are the stride-fallback markers over the
normalized trace, and they are unchanged when the session's corner list is
replaced by any other list — CircuitInfo contributes only its rotation. -/
theorem C4_markers_ignore_corners (gp : String) (aR : Option ℝ) (sA : Bool) (fs : ℚ × ℚ)
    (ro : Bool) (y : Int) (lap : Lap) (ci : CircuitInfo) (cs : List Corner) :
    (plotRasterIn gp aR sA fs ro y lap (some ci)).markers =
      fallbackMarkers (normTrace lap (some ci) aR ro) ∧
    (plotRasterIn gp aR sA fs ro y lap (some ci)).markers =
      (plotRasterIn gp aR sA fs ro y lap
        (some { rotation := ci.rotation, corners := cs })).markers := by
  exact ⟨rfl, rfl⟩

/-- A session as C4's counterexample render resolves it: a two-point trace
and circuit info carrying one authoritative corner. -/
noncomputable def lapTwo : Lap := { time := 90, trace := [((0 : ℝ), 0), (3, 4)] }

noncomputable def ciOneCorner : CircuitInfo :=
  { rotation := none, corners := [{ num := 1, letter := "", x := 0, y := 0, angle := 0 }] }

/-- C4 counterexample: with CircuitInfo carrying one corner, the render
produces two stride markers, not the one annotation the authoritative corner
list would give — the annotations are not computed from the corner list. -/
theorem C4_cex :
    ((plotRasterIn "Monaco" none false (16, 9) true 2024 lapTwo (some ciOneCorner)).markers).length = 2 ∧
    (annotateAuthoritative ciOneCorner (mean2 lapTwo.trace) 0).length = 1 ∧
    (plotRasterIn "Monaco" none false (16, 9) true 2024 lapTwo (some ciOneCorner)).markers ≠
      annotateAuthoritative ciOneCorner (mean2 lapTwo.trace) 0 := by
  have h2 : ((plotRasterIn "Monaco" none false (16, 9) true 2024 lapTwo
      (some ciOneCorner)).markers).length = 2 := by
    show (fallbackMarkers (normTrace lapTwo (some ciOneCorner) none true)).length = 2
    rw [fallbackMarkers_length, normTrace_length]
    decide
  have h1 : (annotateAuthoritative ciOneCorner (mean2 lapTwo.trace) 0).length = 1 := by
    unfold annotateAuthoritative ciOneCorner
    simp
  refine ⟨h2, h1, fun he => ?_⟩
  rw [he, h1] at h2
  exact absurd h2 (by norm_num)

/-- C5 counterexample: a 9-point trace yields stride `max(1, 9 // 8) = 1`
and therefore 9 markers — more than the claimed "at most 8". -/
noncomputable def lapNine : Lap :=
  { time := 90,
    trace := [((0 : ℝ), 0), (1, 0), (2, 0), (3, 0), (4, 0), (5, 0), (6, 0), (7, 0), (8, 0)] }

theorem C5_cex :
    ((plotRasterIn "Monaco" none false (16, 9) true 2024 lapNine none).markers).length = 9 ∧
    ¬((plotRasterIn "Monaco" none false (16, 9) true 2024 lapNine none).markers).length ≤ 8 := by
  have h9 : ((plotRasterIn "Monaco" none false (16, 9) true 2024 lapNine none).markers).length
      = 9 := by
    show (fallbackMarkers (normTrace lapNine none none true)).length = 9
    rw [fallbackMarkers_length, normTrace_length]
    decide
  exact ⟨h9, by rw [h9]; norm_num⟩

/-- C5 (amended): the fallback corner marking selects sample indices
`np.arange(0, n, max(1, n // 8))` starting at 0 and labels them sequentially
`"1".."k"` in ascending trace order; the marker count is `⌈n / stride⌉`,
which can exceed 8 (9 markers for a 9-point trace); for `n = 64` the stride
is 8 and the markers sit at exactly the eight indices 0, 8, ..., 56. -/
theorem C5_stride_markers (gp : String) (aR : Option ℝ) (sA : Bool) (fs : ℚ × ℚ)
    (ro : Bool) (y : Int) (lap : Lap) (circ : Option CircuitInfo) :
    (plotRasterIn gp aR sA fs ro y lap circ).markers =
      fallbackMarkers (normTrace lap circ aR ro) ∧
    ((plotRasterIn gp aR sA fs ro y lap circ).markers).map Marker.label =
      (List.range (strideIndices lap.trace.length).length).map (fun i => natDecRepr (i + 1)) ∧
    strideIndices lap.trace.length = npArange lap.trace.length (max 1 (lap.trace.length / 8)) ∧
    (strideIndices 9).length = 9 ∧
    strideIndices 64 = [0, 8, 16, 24, 32, 40, 48, 56] := by
  refine ⟨rfl, ?_, rfl, by decide, by decide⟩
  show (fallbackMarkers (normTrace lap circ aR ro)).map Marker.label = _
  rw [fallbackMarkers_labels, normTrace_length]

/- ### Cache-key parsing: the colon-separated key is injective on the
request fields that reach it -/

theorem append_sep_inj {sep : Char} {a₁ a₂ r₁ r₂ : List Char}
    (h : a₁ ++ sep :: r₁ = a₂ ++ sep :: r₂) (h₁ : sep ∉ a₁) (h₂ : sep ∉ a₂) :
    a₁ = a₂ ∧ r₁ = r₂ := by
  induction a₁ generalizing a₂ with
  | nil =>
    cases a₂ with
    | nil => simpa using h
    | cons b t =>
      exfalso
      simp only [List.nil_append, List.cons_append, List.cons.injEq] at h
      apply h₂
      rw [h.1]
      exact List.mem_cons_self b t
  | cons a t ih =>
    cases a₂ with
    | nil =>
      exfalso
      simp only [List.cons_append, List.nil_append, List.cons.injEq] at h
      apply h₁
      rw [← h.1]
      exact List.mem_cons_self a t
    | cons b t₂ =>
      simp only [List.cons_append, List.cons.injEq] at h
      obtain ⟨hab, ht⟩ := h
      have ih' := ih ht (fun hm => h₁ (List.mem_cons_of_mem a hm))
        (fun hm => h₂ (List.mem_cons_of_mem b hm))
      exact ⟨by rw [hab, ih'.1], ih'.2⟩

theorem intDecChars_codes (i : Int) : ∀ c ∈ intDecChars i,
    c.toNat = 45 ∨ (48 ≤ c.toNat ∧ c.toNat ≤ 57) := by
  intro c hc
  unfold intDecChars at hc
  by_cases hi : i < 0
  · rw [if_pos hi] at hc
    rcases List.mem_cons.mp hc with h | h
    · subst h; exact Or.inl rfl
    · exact Or.inr (natDecChars_digits i.natAbs c h)
  · rw [if_neg hi] at hc
    exact Or.inr (natDecChars_digits i.natAbs c hc)

theorem pyFloatChars_codes (q : ℚ) : ∀ c ∈ pyFloatChars q,
    45 ≤ c.toNat ∧ c.toNat ≤ 57 := by
  intro c hc
  unfold pyFloatChars at hc
  rcases List.mem_append.mp hc with h | h
  · rcases intDecChars_codes q.num c h with h' | h' <;> omega
  · rcases List.mem_cons.mp h with h' | h'
    · subst h'; exact ⟨by decide, by decide⟩
    · have := natDecChars_digits q.den c h'
      omega

theorem fsChars_no_colon (fs : Option (ℚ × ℚ)) : ':' ∉ fsChars fs := by
  intro hc
  cases fs with
  | none => exact absurd hc (by decide)
  | some pr =>
    obtain ⟨w, x⟩ := pr
    unfold fsChars at hc
    rcases List.mem_cons.mp hc with h | h
    · exact absurd h (by decide)
    · rcases List.mem_append.mp h with h' | h'
      · rcases List.mem_append.mp h' with h'' | h''
        · have := pyFloatChars_codes w ':' h''
          revert this; decide
        · rcases List.mem_cons.mp h'' with h₃ | h₃
          · exact absurd h₃ (by decide)
          · rcases List.mem_cons.mp h₃ with h₄ | h₄
            · exact absurd h₄ (by decide)
            · have := pyFloatChars_codes x ':' h₄
              revert this; decide
      · rcases List.mem_singleton.mp h' with h''
        exact absurd h'' (by decide)

theorem axesChars_no_colon (b : Bool) : ':' ∉ axesChars b := by
  cases b <;> decide

/-- The wellformedness an `angle` query field has by the time the key is
computed: absent, or a string that parsed as a float. -/
def angleWF : Option String → Prop
  | none => True
  | some s => ∃ q, pyParseFloat s = some q

theorem angleChars_no_colon {A : Option String} (hA : angleWF A) : ':' ∉ angleChars A := by
  cases A with
  | none => decide
  | some s =>
    obtain ⟨q, hq⟩ := hA
    exact pyParseFloat_no_colon hq

theorem string_ext {s₁ s₂ : String} (h : s₁.data = s₂.data) : s₁ = s₂ := by
  cases s₁
  cases s₂
  exact congrArg String.mk h

theorem angleChars_inj {A₁ A₂ : Option String} (h₁ : angleWF A₁) (h₂ : angleWF A₂)
    (h : angleChars A₁ = angleChars A₂) : A₁ = A₂ := by
  match A₁, A₂ with
  | none, none => rfl
  | none, some s =>
    exfalso
    obtain ⟨q, hq⟩ := h₂
    apply pyParseFloat_ne_none_str hq
    exact (string_ext (h.symm)).symm ▸ rfl
  | some s, none =>
    exfalso
    obtain ⟨q, hq⟩ := h₁
    apply pyParseFloat_ne_none_str hq
    exact string_ext h
  | some s₁, some s₂ => exact congrArg some (string_ext h)

theorem axesChars_inj {b₁ b₂ : Bool} (h : axesChars b₁ = axesChars b₂) : b₁ = b₂ := by
  cases b₁ <;> cases b₂ <;> first | rfl | exact absurd h (by decide)

theorem pyFloatChars_inj {q₁ q₂ : ℚ} (h : pyFloatChars q₁ = pyFloatChars q₂) : q₁ = q₂ := by
  unfold pyFloatChars at h
  have hdot : ∀ i : Int, '.' ∉ intDecChars i := by
    intro i hm
    have := intDecChars_codes i '.' hm
    revert this; decide
  obtain ⟨hnum, hden⟩ := append_sep_inj h (hdot q₁.num) (hdot q₂.num)
  exact Rat.ext (intDecChars_injective hnum) (natDecChars_injective hden)

theorem fsChars_inj {f₁ f₂ : Option (ℚ × ℚ)} (h : fsChars f₁ = fsChars f₂) : f₁ = f₂ := by
  match f₁, f₂ with
  | none, none => rfl
  | none, some pr =>
    obtain ⟨w, x⟩ := pr
    exfalso
    have h' : 'N' :: "one".data =
        '(' :: ((pyFloatChars w ++ ',' :: ' ' :: pyFloatChars x) ++ [')']) := h
    injection h' with hh _
    exact absurd hh (by decide)
  | some pr, none =>
    obtain ⟨w, x⟩ := pr
    exfalso
    have h' : '(' :: ((pyFloatChars w ++ ',' :: ' ' :: pyFloatChars x) ++ [')']) =
        'N' :: "one".data := h
    injection h' with hh _
    exact absurd hh (by decide)
  | some pr₁, some pr₂ =>
    obtain ⟨w₁, x₁⟩ := pr₁
    obtain ⟨w₂, x₂⟩ := pr₂
    have h₀ : '(' :: ((pyFloatChars w₁ ++ ',' :: ' ' :: pyFloatChars x₁) ++ [')']) =
        '(' :: ((pyFloatChars w₂ ++ ',' :: ' ' :: pyFloatChars x₂) ++ [')']) := h
    injection h₀ with _ h'
    simp only [List.append_assoc, List.cons_append, List.nil_append] at h'
    have hcomma : ∀ q : ℚ, ',' ∉ pyFloatChars q := by
      intro q hm
      have := pyFloatChars_codes q ',' hm
      revert this; decide
    obtain ⟨hw, hrest⟩ := append_sep_inj h' (hcomma w₁) (hcomma w₂)
    injection hrest with _ hq
    have hparen : ∀ q : ℚ, ')' ∉ pyFloatChars q := by
      intro q hm
      have := pyFloatChars_codes q ')' hm
      revert this; decide
    obtain ⟨hx, -⟩ := @append_sep_inj ')' (pyFloatChars x₁) (pyFloatChars x₂) [] [] hq (hparen x₁) (hparen x₂)
    rw [pyFloatChars_inj hw, pyFloatChars_inj hx]

/-- Equal cache keys force equal keyed fields (for angle fields that are
absent or float-parseable — the only ones that reach the key computation). -/
theorem cacheKey_inj {y₁ y₂ : Int} {n₁ n₂ : String} {A₁ A₂ : Option String}
    {x₁ x₂ : Bool} {f₁ f₂ : Option (ℚ × ℚ)}
    (hA₁ : angleWF A₁) (hA₂ : angleWF A₂)
    (h : cacheKey y₁ n₁ A₁ x₁ f₁ = cacheKey y₂ n₂ A₂ x₂ f₂) :
    y₁ = y₂ ∧ n₁ = n₂ ∧ A₁ = A₂ ∧ x₁ = x₂ ∧ f₁ = f₂ := by
  unfold cacheKey at h
  have hk : keyChars y₁ n₁ A₁ x₁ f₁ = keyChars y₂ n₂ A₂ x₂ f₂ := by
    injection h
  unfold keyChars at hk
  simp only [List.append_assoc, List.cons_append] at hk
  obtain ⟨hY, hR⟩ := append_sep_inj hk (intDecChars_no_colon y₁) (intDecChars_no_colon y₂)
  have hRrev := congrArg List.reverse hR
  simp only [List.reverse_append, List.reverse_cons, List.append_assoc, List.cons_append,
    List.nil_append, List.singleton_append] at hRrev
  have hmemrev : ∀ (l : List Char), ':' ∉ l → ':' ∉ l.reverse := by
    intro l hl hm
    exact hl (List.mem_reverse.mp hm)
  obtain ⟨hF, hR2⟩ := append_sep_inj hRrev
    (hmemrev _ (fsChars_no_colon f₁)) (hmemrev _ (fsChars_no_colon f₂))
  obtain ⟨hX, hR3⟩ := append_sep_inj hR2
    (hmemrev _ (axesChars_no_colon x₁)) (hmemrev _ (axesChars_no_colon x₂))
  obtain ⟨hA, hN⟩ := append_sep_inj hR3
    (hmemrev _ (angleChars_no_colon hA₁)) (hmemrev _ (angleChars_no_colon hA₂))
  refine ⟨intDecChars_injective hY, ?_, ?_, ?_, ?_⟩
  · exact string_ext (List.reverse_injective hN)
  · exact angleChars_inj hA₁ hA₂ (List.reverse_injective hA)
  · exact axesChars_inj (List.reverse_injective hX)
  · exact fsChars_inj (List.reverse_injective hF)

/- ### C8 — the cache key as a function of the request -/

/-- The figure size actually keyed for a request (the parsed pair when both
`w` and `h` parse, otherwise absent). -/
def fsValOf (q : TIQuery) : Option (ℚ × ℚ) :=
  match figsizeOf q.w q.h with
  | Except.ok fs => fs
  | Except.error _ => none

/-- The five keyed fields of a request: year, sanitized identifier, raw
rotation-override string, parsed show-axes flag, parsed figure size.
`refresh` is deliberately not among them. -/
def tiFields (year : Int) (gpName : String) (q : TIQuery) :
    Int × String × Option String × Bool × Option (ℚ × ℚ) :=
  (year, sanTrackImage gpName, q.angle, parseBoolFlag ((q.axesFlag).getD "0"), fsValOf q)

/-- The key `track_image` computes for a request, when the request passes
validation. -/
def tiKeyOf (year : Int) (gpName : String) (q : TIQuery) : Option String :=
  match tiFront year gpName q with
  | Except.ok ps => some ps.key
  | Except.error _ => none

theorem tiFront_ok_val {year : Int} {gpName : String} {q : TIQuery} {ps : TIParams}
    (h : tiFront year gpName q = Except.ok ps) :
    ps = { san := sanTrackImage gpName, ax := parseBoolFlag ((q.axesFlag).getD "0"),
           fs := fsValOf q,
           key := cacheKey year (sanTrackImage gpName) q.angle
             (parseBoolFlag ((q.axesFlag).getD "0")) (fsValOf q),
           refresh := parseBoolFlag ((q.refresh).getD "0") } ∧
    angleWF q.angle := by
  unfold tiFront at h
  by_cases hang : (match q.angle with
    | some s => (pyParseFloat s).isNone
    | none => false) = true
  · rw [if_pos hang] at h
    exact absurd h (by simp)
  · rw [if_neg hang] at h
    have hWF : angleWF q.angle := by
      cases hq : q.angle with
      | none => trivial
      | some s =>
        rw [hq] at hang
        cases hps : pyParseFloat s with
        | none => exact absurd (by dsimp only; rw [hps]; rfl) hang
        | some v => exact ⟨v, hps⟩
    cases hfs : figsizeOf q.w q.h with
    | error u =>
      rw [hfs] at h
      exact absurd h (by simp)
    | ok fs =>
      rw [hfs] at h
      have hps := (Except.ok.inj h).symm
      have hfsv : fsValOf q = fs := by
        unfold fsValOf
        rw [hfs]
      rw [hps, hfsv]
      exact ⟨rfl, hWF⟩

theorem tiFront_mk_ok {year : Int} {gpName : String} {q : TIQuery} {fs : Option (ℚ × ℚ)}
    (hang : ¬(match q.angle with
      | some s => (pyParseFloat s).isNone
      | none => false) = true)
    (hfs : figsizeOf q.w q.h = Except.ok fs) :
    tiFront year gpName q = Except.ok
      { san := sanTrackImage gpName, ax := parseBoolFlag ((q.axesFlag).getD "0"), fs := fs,
        key := cacheKey year (sanTrackImage gpName) q.angle
          (parseBoolFlag ((q.axesFlag).getD "0")) fs,
        refresh := parseBoolFlag ((q.refresh).getD "0") } := by
  unfold tiFront
  rw [if_neg hang, hfs]

theorem tiKeyOf_some {year : Int} {gpName : String} {q : TIQuery} {k : String}
    (h : tiKeyOf year gpName q = some k) :
    k = cacheKey year (sanTrackImage gpName) q.angle
      (parseBoolFlag ((q.axesFlag).getD "0")) (fsValOf q) ∧ angleWF q.angle := by
  unfold tiKeyOf at h
  cases hfr : tiFront year gpName q with
  | error msg => rw [hfr] at h; exact absurd h (by simp)
  | ok ps =>
    rw [hfr] at h
    obtain ⟨hval, hWF⟩ := tiFront_ok_val hfr
    have hk := Option.some.inj h
    rw [← hk, hval]
    exact ⟨rfl, hWF⟩

theorem tiKeyOf_refresh (year : Int) (g : String) (q : TIQuery) (r : Option String) :
    tiKeyOf year g { q with refresh := r } = tiKeyOf year g q := by
  unfold tiKeyOf tiFront
  dsimp only
  by_cases hang : (match q.angle with
    | some s => (pyParseFloat s).isNone
    | none => false) = true
  · rw [if_pos hang, if_pos hang]
  · rw [if_neg hang, if_neg hang]
    cases hfs : figsizeOf q.w q.h with
    | error u => rfl
    | ok fs => rfl

/-- C8: the cache key is a pure function of the five keyed fields — for any
two validated requests, the keys agree exactly when (year, sanitized
identifier, rotation override, show-axes flag, figure size) agree; in
particular the force-refresh flag never enters the key, so a request
differing only in it computes the identical key. -/
theorem C8_key_pure_function (y₁ y₂ : Int) (g₁ g₂ : String) (q₁ q₂ : TIQuery)
    (k₁ k₂ : String) (r : Option String)
    (h₁ : tiKeyOf y₁ g₁ q₁ = some k₁) (h₂ : tiKeyOf y₂ g₂ q₂ = some k₂) :
    tiKeyOf y₁ g₁ { q₁ with refresh := r } = some k₁ ∧
    (k₁ = k₂ ↔ tiFields y₁ g₁ q₁ = tiFields y₂ g₂ q₂) := by
  constructor
  · rw [tiKeyOf_refresh]
    exact h₁
  · obtain ⟨hk₁, hWF₁⟩ := tiKeyOf_some h₁
    obtain ⟨hk₂, hWF₂⟩ := tiKeyOf_some h₂
    constructor
    · intro hk
      rw [hk₁, hk₂] at hk
      obtain ⟨hy, hn, hA, hx, hf⟩ := cacheKey_inj hWF₁ hWF₂ hk
      unfold tiFields
      rw [hy, hn, hA, hx, hf]
    · intro hf
      unfold tiFields at hf
      simp only [Prod.mk.injEq] at hf
      obtain ⟨hy, hn, hA, hx, hfs⟩ := hf
      rw [hk₁, hk₂, hy, hn, hA, hx, hfs]

def qPlain : TIQuery :=
  { angle := none, axesFlag := none, w := none, h := none, refresh := none }

theorem C8_key_witness :
    tiKeyOf 2024 "Monaco" qPlain = some (cacheKey 2024 "Monaco" none false none) ∧
    tiKeyOf 2024 "Monaco" { qPlain with refresh := some "1" } =
      some (cacheKey 2024 "Monaco" none false none) ∧
    (tiKeyOf 2024 "Monaco" { qPlain with refresh := some "1" } =
        some (cacheKey 2024 "Monaco" none false none) ∧
      (cacheKey 2024 "Monaco" none false none = cacheKey 2024 "Monaco" none false none ↔
        tiFields 2024 "Monaco" qPlain =
          tiFields 2024 "Monaco" { qPlain with refresh := some "1" })) :=
  ⟨by decide, by decide,
    C8_key_pure_function 2024 2024 "Monaco" "Monaco" qPlain
      { qPlain with refresh := some "1" } (cacheKey 2024 "Monaco" none false none)
      (cacheKey 2024 "Monaco" none false none) (some "1") (by decide) (by decide)⟩

/- ### C7 — strict rejection of rotation overrides -/

theorem lookupCache_mem {c : List (String × String)} {key v : String}
    (h : lookupCache c key = some v) : (key, v) ∈ c := by
  induction c with
  | nil => exact absurd h (by simp [lookupCache])
  | cons kv rest ih =>
    unfold lookupCache at h
    by_cases hk : kv.1 = key
    · rw [if_pos hk] at h
      have hv := Option.some.inj h
      have hkv : kv = (key, v) := by
        obtain ⟨a, b⟩ := kv
        simp only at hk hv
        rw [hk, hv]
      rw [← hkv]
      exact List.mem_cons_self _ _
    · rw [if_neg hk] at h
      exact List.mem_cons_of_mem _ (ih h)

/-- Every stored entry is keyed with an absent angle field: the write path
runs only after the strict-mode rejection of any angle parameter. -/
def cacheWF (c : List (String × String)) : Prop :=
  ∀ kv ∈ c, ∃ y n x f, kv.1 = cacheKey y n (none : Option String) x f

theorem removeCache_WF {c : List (String × String)} {key : String} (hc : cacheWF c) :
    cacheWF (removeCache c key) := by
  intro kv hkv
  exact hc kv (List.mem_filter.mp hkv).1

theorem tiRender_cacheAfter_WF (raster : RasterIn → String) (p : Int → ProviderResult)
    (wf : Bool) (year : Int) (angle : Option String) (san : String) (ax : Bool)
    (fs : Option (ℚ × ℚ)) (refresh : Bool) (key : String) (cache1 : List (String × String))
    (hc : cacheWF cache1)
    (hkey : angle = none → ∃ y n x f, key = cacheKey y n (none : Option String) x f) :
    cacheWF (tiRender raster p wf year angle san ax fs refresh key cache1).cacheAfter := by
  unfold tiRender
  cases angle with
  | some a => exact hc
  | none =>
    cases hdraw : drawF1Circuit raster p year san 1 none ax (fs.getD (16, 9)) true with
    | ok r =>
      dsimp only
      by_cases hwf : wf = true
      · rw [if_pos hwf]
        exact hc
      · rw [if_neg hwf]
        intro kv hkv
        rcases List.mem_cons.mp hkv with h | h
        · obtain ⟨y', n', x', f', hk⟩ := hkey rfl
          exact ⟨y', n', x', f', by rw [h]; exact hk⟩
        · exact hc kv h
    | error e => cases e <;> exact hc

theorem trackImage_cacheAfter_WF (raster : RasterIn → String) (p : Int → ProviderResult)
    (rf wf : Bool) (year : Int) (gpName : String) (c : List (String × String)) (q : TIQuery)
    (hc : cacheWF c) :
    cacheWF (trackImage raster p rf wf year gpName c q).cacheAfter := by
  unfold trackImage
  cases hfr : tiFront year gpName q with
  | error msg => exact hc
  | ok ps =>
    obtain ⟨hval, hWF⟩ := tiFront_ok_val hfr
    have hkey : q.angle = none →
        ∃ y n x f, ps.key = cacheKey y n (none : Option String) x f := by
      intro hA
      refine ⟨year, sanTrackImage gpName, parseBoolFlag ((q.axesFlag).getD "0"),
        fsValOf q, ?_⟩
      rw [hval]
      dsimp only
      rw [hA]
    dsimp only
    cases hlook : lookupCache c ps.key with
    | some bytes =>
      dsimp only
      by_cases hr : ps.refresh = true
      · rw [if_pos hr]
        refine tiRender_cacheAfter_WF _ _ _ _ _ _ _ _ _ _ _ ?_ hkey
        by_cases hrf : rf = true
        · rw [if_pos hrf]; exact hc
        · rw [if_neg hrf]; exact removeCache_WF hc
      · rw [if_neg hr]
        exact hc
    | none =>
      dsimp only
      exact tiRender_cacheAfter_WF _ _ _ _ _ _ _ _ _ _ _ hc hkey

theorem reachable_cacheWF {c : List (String × String)} (h : ReachableCache c) : cacheWF c := by
  induction h with
  | empty => intro kv hkv; exact absurd hkv (List.not_mem_nil kv)
  | step raster p rf wf year gpName q hprev ih =>
    exact trackImage_cacheAfter_WF raster p rf wf year gpName _ q ih

/-- C7 (amended): a request to the public track-image endpoint that carries
an explicit rotation override never renders and never returns an image —
but the status it gets depends on the override: an unparseable angle (or an
unparseable supplied w/h pair) is rejected with an InvalidRequest 400 before
the render block, while a parseable override reaches the strict-mode
rejection at line 424, whose `abort(400)` is caught by the blanket
`except Exception` at line 453 and surfaces as a 500 "Error generating
image".  With the store in any state reachable from empty, no cached image
can be served for such a request either. -/
theorem C7_angle_rejected (raster : RasterIn → String) (p : Int → ProviderResult)
    (rf wf : Bool) (year : Int) (gpName : String) {c : List (String × String)}
    (hc : ReachableCache c) (q : TIQuery) (a : String) (ha : q.angle = some a) :
    (trackImage raster p rf wf year gpName c q).rendered = false ∧
    (trackImage raster p rf wf year gpName c q).resp =
      (if (pyParseFloat a).isNone then TIResponse.clientErr 400 "Invalid angle parameter"
       else match figsizeOf q.w q.h with
         | Except.error _ => TIResponse.clientErr 400 "Invalid w/h parameters"
         | Except.ok _ => TIResponse.clientErr 500 "Error generating image") := by
  cases hps : pyParseFloat a with
  | none =>
    have hfr : tiFront year gpName q = Except.error "Invalid angle parameter" := by
      unfold tiFront
      rw [if_pos (by rw [ha]; dsimp only; rw [hps]; rfl)]
    unfold trackImage
    rw [hfr]
    exact ⟨rfl, rfl⟩
  | some v =>
    have hang : ¬(match q.angle with
        | some s => (pyParseFloat s).isNone
        | none => false) = true := by
      rw [ha]
      dsimp only
      rw [hps]
      simp
    cases hfs : figsizeOf q.w q.h with
    | error u =>
      have hfr : tiFront year gpName q = Except.error "Invalid w/h parameters" := by
        unfold tiFront
        rw [if_neg hang, hfs]
      unfold trackImage
      rw [hfr]
      exact ⟨rfl, rfl⟩
    | ok fs =>
      have hfr := @tiFront_mk_ok year gpName q fs hang hfs
      have hWFa : angleWF (some a) := ⟨v, hps⟩
      have hlook : lookupCache c (cacheKey year (sanTrackImage gpName) q.angle
          (parseBoolFlag ((q.axesFlag).getD "0")) fs) = none := by
        cases hl : lookupCache c (cacheKey year (sanTrackImage gpName) q.angle
            (parseBoolFlag ((q.axesFlag).getD "0")) fs) with
        | none => rfl
        | some b =>
          exfalso
          obtain ⟨y', n', x', f', hk'⟩ := reachable_cacheWF hc _ (lookupCache_mem hl)
          dsimp only at hk'
          rw [ha] at hk'
          obtain ⟨-, -, hAngle, -, -⟩ :=
            cacheKey_inj hWFa (show angleWF (none : Option String) from trivial) hk'
          exact Option.noConfusion hAngle
      unfold trackImage
      rw [hfr]
      dsimp only
      rw [hlook]
      dsimp only
      unfold tiRender
      rw [ha]
      exact ⟨rfl, rfl⟩

def qAngle15 : TIQuery :=
  { angle := some "15", axesFlag := none, w := none, h := none, refresh := none }

/-- C7 counterexample: for the parseable override `angle=15` the endpoint
answers 500 "Error generating image", not the claimed InvalidRequest 400 —
the strict-mode `abort(400)` of line 424 is raised inside the `try:` whose
`except Exception` (line 453) converts it to a 500; no render runs and no
image is returned. -/
theorem C7_cex :
    (trackImage rasterStub providerC1 false false 2024 "Monaco" [] qAngle15).resp =
      TIResponse.clientErr 500 "Error generating image" ∧
    (trackImage rasterStub providerC1 false false 2024 "Monaco" [] qAngle15).rendered =
      false :=
  ⟨rfl, rfl⟩

theorem C7_angle_rejected_witness :
    qAngle15.angle = some "15" ∧
    ((trackImage rasterStub providerC1 false false 2024 "Monaco" [] qAngle15).rendered =
        false ∧
      (trackImage rasterStub providerC1 false false 2024 "Monaco" [] qAngle15).resp =
        (if (pyParseFloat "15").isNone then
          TIResponse.clientErr 400 "Invalid angle parameter"
         else match figsizeOf qAngle15.w qAngle15.h with
           | Except.error _ => TIResponse.clientErr 400 "Invalid w/h parameters"
           | Except.ok _ => TIResponse.clientErr 500 "Error generating image")) :=
  ⟨rfl, C7_angle_rejected rasterStub providerC1 false false 2024 "Monaco"
    ReachableCache.empty qAngle15 "15" rfl⟩

/- ### C9 / C10 — cache semantics and lenient parameter handling -/

theorem trackImage_hit_no_refresh (raster : RasterIn → String) (p : Int → ProviderResult)
    (rf wf : Bool) (year : Int) (gpName : String) (c : List (String × String)) (q : TIQuery)
    (ps : TIParams) (bytes : String)
    (hfr : tiFront year gpName q = Except.ok ps)
    (hlook : lookupCache c ps.key = some bytes) (href : ps.refresh = false) :
    trackImage raster p rf wf year gpName c q =
      { resp := TIResponse.imageOk bytes "public, max-age=3600", rendered := false,
        cacheAfter := c } := by
  unfold trackImage
  rw [hfr]
  dsimp only
  rw [hlook]
  dsimp only
  rw [if_neg (by simp [href])]

theorem trackImage_hit_refresh (raster : RasterIn → String) (p : Int → ProviderResult)
    (rf wf : Bool) (year : Int) (gpName : String) (c : List (String × String)) (q : TIQuery)
    (ps : TIParams) (bytes : String)
    (hfr : tiFront year gpName q = Except.ok ps)
    (hlook : lookupCache c ps.key = some bytes) (href : ps.refresh = true) :
    trackImage raster p rf wf year gpName c q =
      tiRender raster p wf year q.angle ps.san ps.ax ps.fs ps.refresh ps.key
        (if rf = true then c else removeCache c ps.key) := by
  unfold trackImage
  rw [hfr]
  dsimp only
  rw [hlook]
  dsimp only
  rw [if_pos href]

theorem trackImage_miss (raster : RasterIn → String) (p : Int → ProviderResult)
    (rf wf : Bool) (year : Int) (gpName : String) (c : List (String × String)) (q : TIQuery)
    (ps : TIParams)
    (hfr : tiFront year gpName q = Except.ok ps)
    (hlook : lookupCache c ps.key = none) :
    trackImage raster p rf wf year gpName c q =
      tiRender raster p wf year q.angle ps.san ps.ax ps.fs ps.refresh ps.key c := by
  unfold trackImage
  rw [hfr]
  dsimp only
  rw [hlook]

theorem tiRender_ok (raster : RasterIn → String) (p : Int → ProviderResult) (wf : Bool)
    (year : Int) (san : String) (ax : Bool) (fs : Option (ℚ × ℚ)) (refresh : Bool)
    (key : String) (cache1 : List (String × String)) (r : DrawOk)
    (hdraw : drawF1Circuit raster p year san 1 none ax (fs.getD (16, 9)) true = Except.ok r) :
    tiRender raster p wf year none san ax fs refresh key cache1 =
      { resp := TIResponse.imageOk r.image
          (if refresh then "no-cache, no-store, must-revalidate" else "public, max-age=3600"),
        rendered := true,
        cacheAfter := if wf then cache1 else insertCache cache1 key r.image } := by
  unfold tiRender
  rw [hdraw]

theorem tiRender_rendered (raster : RasterIn → String) (p : Int → ProviderResult) (wf : Bool)
    (year : Int) (san : String) (ax : Bool) (fs : Option (ℚ × ℚ)) (refresh : Bool)
    (key : String) (cache1 : List (String × String)) :
    (tiRender raster p wf year none san ax fs refresh key cache1).rendered = true := by
  unfold tiRender
  cases hdraw : drawF1Circuit raster p year san 1 none ax (fs.getD (16, 9)) true with
  | ok r => rfl
  | error e => cases e <;> rfl

theorem tiRender_resp_cache1 (raster : RasterIn → String) (p : Int → ProviderResult)
    (wf : Bool) (year : Int) (angle : Option String) (san : String) (ax : Bool)
    (fs : Option (ℚ × ℚ)) (refresh : Bool) (key : String)
    (cache1 cache1' : List (String × String)) :
    (tiRender raster p wf year angle san ax fs refresh key cache1).resp =
      (tiRender raster p wf year angle san ax fs refresh key cache1').resp := by
  unfold tiRender
  cases angle with
  | some a => rfl
  | none =>
    cases hdraw : drawF1Circuit raster p year san 1 none ax (fs.getD (16, 9)) true with
    | ok r => rfl
    | error e => cases e <;> rfl

theorem tiRender_none_not_400 (raster : RasterIn → String) (p : Int → ProviderResult)
    (wf : Bool) (year : Int) (san : String) (ax : Bool) (fs : Option (ℚ × ℚ))
    (refresh : Bool) (key : String) (cache1 : List (String × String)) (msg : String) :
    (tiRender raster p wf year none san ax fs refresh key cache1).resp ≠
      TIResponse.clientErr 400 msg := by
  unfold tiRender
  cases hdraw : drawF1Circuit raster p year san 1 none ax (fs.getD (16, 9)) true with
  | ok r => simp
  | error e => cases e <;> simp

theorem lookupCache_insert (c : List (String × String)) (key v : String) :
    lookupCache (insertCache c key v) key = some v := by
  show (if (key, v).1 = key then some (key, v).2 else lookupCache c key) = some v
  rw [if_pos rfl]

/-- C9 (amended): for every track-image request that passes validation and
carries no rotation override: with force-refresh false and a stored entry
the stored bytes are returned verbatim with no render and an unchanged
store; with force-refresh true the pipeline always runs — even when an entry
exists, and a failure of the best-effort deletion leaves the response
unchanged; after a successful render the response carries the freshly
rendered bytes whether or not the best-effort cache write succeeds, and a
successful write stores exactly those bytes under the key.  (The original
claim, quantified over every request, fails for requests that carry an
angle parameter: they are rejected before any render.) -/
theorem C9_cache_flow (raster : RasterIn → String) (p : Int → ProviderResult)
    (rf wf : Bool) (year : Int) (gpName : String) (c : List (String × String)) (q : TIQuery)
    (ps : TIParams)
    (hA : q.angle = none) (hfr : tiFront year gpName q = Except.ok ps) :
    (∀ bytes, ps.refresh = false → lookupCache c ps.key = some bytes →
      trackImage raster p rf wf year gpName c q =
        { resp := TIResponse.imageOk bytes "public, max-age=3600", rendered := false,
          cacheAfter := c }) ∧
    (ps.refresh = true →
      (trackImage raster p rf wf year gpName c q).rendered = true ∧
      (trackImage raster p true wf year gpName c q).resp =
        (trackImage raster p false wf year gpName c q).resp) ∧
    (∀ r, drawF1Circuit raster p year ps.san 1 none ps.ax (ps.fs.getD (16, 9)) true =
        Except.ok r →
      (lookupCache c ps.key = none ∨ ps.refresh = true) →
      (trackImage raster p rf wf year gpName c q).resp =
        TIResponse.imageOk r.image
          (if ps.refresh then "no-cache, no-store, must-revalidate"
            else "public, max-age=3600") ∧
      (wf = false →
        lookupCache (trackImage raster p rf wf year gpName c q).cacheAfter ps.key =
          some r.image)) := by
  refine ⟨?_, ?_, ?_⟩
  · intro bytes href hlook
    exact trackImage_hit_no_refresh raster p rf wf year gpName c q ps bytes hfr hlook href
  · intro href
    cases hlook : lookupCache c ps.key with
    | some bytes =>
      constructor
      · rw [trackImage_hit_refresh raster p rf wf year gpName c q ps bytes hfr hlook href, hA]
        exact tiRender_rendered _ _ _ _ _ _ _ _ _ _
      · rw [trackImage_hit_refresh raster p true wf year gpName c q ps bytes hfr hlook href,
          trackImage_hit_refresh raster p false wf year gpName c q ps bytes hfr hlook href]
        rw [if_pos rfl, if_neg (by simp)]
        exact tiRender_resp_cache1 _ _ _ _ _ _ _ _ _ _ _ _
    | none =>
      constructor
      · rw [trackImage_miss raster p rf wf year gpName c q ps hfr hlook, hA]
        exact tiRender_rendered _ _ _ _ _ _ _ _ _ _
      · rw [trackImage_miss raster p true wf year gpName c q ps hfr hlook,
          trackImage_miss raster p false wf year gpName c q ps hfr hlook]
  · intro r hdraw hrender
    cases hlook : lookupCache c ps.key with
    | some bytes =>
      have href : ps.refresh = true := by
        rcases hrender with h | h
        · rw [hlook] at h; exact absurd h (by simp)
        · exact h
      rw [trackImage_hit_refresh raster p rf wf year gpName c q ps bytes hfr hlook href, hA,
        tiRender_ok _ _ _ _ _ _ _ _ _ _ _ hdraw]
      refine ⟨rfl, ?_⟩
      intro hwf
      dsimp only
      rw [if_neg (by simp [hwf])]
      exact lookupCache_insert _ _ _
    | none =>
      rw [trackImage_miss raster p rf wf year gpName c q ps hfr hlook, hA,
        tiRender_ok _ _ _ _ _ _ _ _ _ _ _ hdraw]
      refine ⟨rfl, ?_⟩
      intro hwf
      dsimp only
      rw [if_neg (by simp [hwf])]
      exact lookupCache_insert _ _ _

def qRefresh : TIQuery :=
  { angle := none, axesFlag := none, w := none, h := none, refresh := some "1" }

theorem C9_cache_flow_witness :
    qRefresh.angle = none ∧
    tiFront 2023 "Monaco" qRefresh = Except.ok
      { san := "Monaco", ax := false, fs := none,
        key := cacheKey 2023 "Monaco" none false none, refresh := true } ∧
    ((trackImage rasterStub providerC1 false false 2023 "Monaco" [] qRefresh).rendered =
        true ∧
      (trackImage rasterStub providerC1 true false 2023 "Monaco" [] qRefresh).resp =
        (trackImage rasterStub providerC1 false false 2023 "Monaco" [] qRefresh).resp) :=
  ⟨rfl, rfl,
    (C9_cache_flow rasterStub providerC1 false false 2023 "Monaco" [] qRefresh
      { san := "Monaco", ax := false, fs := none,
        key := cacheKey 2023 "Monaco" none false none, refresh := true } rfl
      rfl).2.1 rfl⟩

/-- C9 counterexample: a request with `refresh=1` that also carries
`angle=15` is rejected before any render — the strict-mode `abort(400)` at
line 424 is converted to a 500 "Error generating image" by the blanket
`except Exception` at line 453 — so, as stated for *every* request,
"force-refresh true always triggers a fresh render" is false. -/
theorem C9_cex :
    (trackImage rasterStub providerC1 false false 2024 "Monaco" []
      { angle := some "15", axesFlag := none, w := none, h := none,
        refresh := some "1" }).rendered = false ∧
    (trackImage rasterStub providerC1 false false 2024 "Monaco" []
      { angle := some "15", axesFlag := none, w := none, h := none,
        refresh := some "1" }).resp =
      TIResponse.clientErr 500 "Error generating image" :=
  ⟨rfl, rfl⟩

/-- C10: a malformed `show_axes` value is silently coerced to false (axes
hidden) rather than rejected, and with exactly one of `w`/`h` supplied the
figure size silently falls back to the pipeline default: validation
succeeds with show-axes false and no figure size, the response is never an
HTTP 400, and on a cache miss the render runs with `show_axes = false` and
no figsize override (so the pipeline's `(16, 9)` default applies). -/
theorem C10_lenient_parsing (raster : RasterIn → String) (p : Int → ProviderResult)
    (rf wf : Bool) (year : Int) (gpName : String) (c : List (String × String))
    (q : TIQuery) (s ws : String)
    (hA : q.angle = none) (hax : q.axesFlag = some s) (hbad : pyParseInt s = none)
    (hw : q.w = some ws) (hh : q.h = none) :
    tiFront year gpName q = Except.ok
      { san := sanTrackImage gpName, ax := false, fs := none,
        key := cacheKey year (sanTrackImage gpName) none false none,
        refresh := parseBoolFlag ((q.refresh).getD "0") } ∧
    (∀ msg, (trackImage raster p rf wf year gpName c q).resp ≠
      TIResponse.clientErr 400 msg) ∧
    (lookupCache c (cacheKey year (sanTrackImage gpName) none false none) = none →
      trackImage raster p rf wf year gpName c q =
        tiRender raster p wf year none (sanTrackImage gpName) false none
          (parseBoolFlag ((q.refresh).getD "0"))
          (cacheKey year (sanTrackImage gpName) none false none) c) := by
  have hax' : parseBoolFlag ((q.axesFlag).getD "0") = false := by
    rw [hax]
    show parseBoolFlag s = false
    unfold parseBoolFlag
    rw [hbad]
  have hfs : figsizeOf q.w q.h = Except.ok none := by
    rw [hw, hh]
    rfl
  have hfr : tiFront year gpName q = Except.ok
      { san := sanTrackImage gpName, ax := false, fs := none,
        key := cacheKey year (sanTrackImage gpName) none false none,
        refresh := parseBoolFlag ((q.refresh).getD "0") } := by
    have h0 := @tiFront_mk_ok year gpName q none (by rw [hA]; simp) hfs
    rw [h0, hax', hA]
  refine ⟨hfr, ?_, ?_⟩
  · intro msg
    cases hlook : lookupCache c
        (cacheKey year (sanTrackImage gpName) none false none) with
    | some bytes =>
      by_cases hr : parseBoolFlag ((q.refresh).getD "0") = true
      · rw [trackImage_hit_refresh raster p rf wf year gpName c q _ bytes hfr hlook hr, hA]
        exact tiRender_none_not_400 _ _ _ _ _ _ _ _ _ _ msg
      · rw [trackImage_hit_no_refresh raster p rf wf year gpName c q _ bytes hfr hlook
          (by simpa using hr)]
        simp
    | none =>
      rw [trackImage_miss raster p rf wf year gpName c q _ hfr hlook, hA]
      exact tiRender_none_not_400 _ _ _ _ _ _ _ _ _ _ msg
  · intro hlook
    rw [trackImage_miss raster p rf wf year gpName c q _ hfr hlook, hA]

def qOddParams : TIQuery :=
  { angle := none, axesFlag := some "yes", w := some "3.5", h := none, refresh := none }

theorem C10_lenient_parsing_witness :
    qOddParams.angle = none ∧ qOddParams.axesFlag = some "yes" ∧
    pyParseInt "yes" = none ∧ qOddParams.w = some "3.5" ∧ qOddParams.h = none ∧
    tiFront 2023 "Monaco" qOddParams = Except.ok
      { san := "Monaco", ax := false, fs := none,
        key := cacheKey 2023 "Monaco" none false none,
        refresh := parseBoolFlag ((qOddParams.refresh).getD "0") } :=
  ⟨rfl, rfl, by decide, rfl, rfl,
    (C10_lenient_parsing rasterStub providerC1 false false 2023 "Monaco" [] qOddParams
      "yes" "3.5" rfl rfl (by decide) rfl rfl).1⟩

end F1Tracker
